import Mathlib

/-!
# Verification of the Autosafactory_genai hallucination-mitigation pipeline

Shallow embedding of the parts of the repository that the checked claims
concern: the AST indexer's exclusion predicate and class extraction
(`src/ast_indexer.py`), the symbol-table cache serialisation, the
hallucination fix table and its replacement pass
(`src/knowledge_base.py`, `src/validation_engine.py`), the pre-execution
validator (`src/validation_engine.py`), the API validator
(`src/api_validator.py`), the executor (`src/executor.py`), the tiered
fixer (`src/fixer.py`), the error feedback manager
(`src/error_feedback_manager.py`) and the two session-driving repair
loops (`app.py`, `src/main.py`).

Python strings are modelled as `List Char` (`Str`), with the string
operations used by the source (`in`, `str.replace`, `str.split`,
`str.strip`, `str.lower`, slicing) defined below with CPython semantics.
The regular expressions the source applies are all of a simple shape
(literal text, `\w+`, `\s*`, `\d+`, `[^)]+`, `[^[\]]+` runs followed by
literal text); each one is embedded as an explicit scanner implementing
Python `re.search` / `re.finditer` / `re.sub` semantics (leftmost match,
non-overlapping, greedy character-class runs) for that pattern.
-/

/-- Python strings, as lists of characters. -/
abbrev Str := List Char

/-- Coerce a Lean string literal to the `Str` model. -/
def pyS (s : String) : Str := s.data

namespace PyStr

/-- The regex class `\w` (ASCII range, which covers every identifier this
repository matches). -/
def isWordChar (c : Char) : Bool :=
  (('a' ≤ c && c ≤ 'z') || ('A' ≤ c && c ≤ 'Z') || ('0' ≤ c && c ≤ '9') || c == '_')

/-- The regex class `\s` (ASCII whitespace). -/
def isSpaceChar (c : Char) : Bool :=
  c == ' ' || c == '\t' || c == '\n' || c == '\r' || c == '\x0b' || c == '\x0c'

/-- The regex class `\d`. -/
def isDigitChar (c : Char) : Bool := '0' ≤ c && c ≤ '9'

/-- Python `needle in haystack` (substring containment). -/
def contains : Str → Str → Bool
  | [], needle => needle.isPrefixOf []
  | c :: rest, needle => needle.isPrefixOf (c :: rest) || contains rest needle

/-- Python `s.startswith(p)`. -/
def startswith (s p : Str) : Bool := p.isPrefixOf s

/-- Python `s.endswith(p)`. -/
def endswith (s p : Str) : Bool := p.isSuffixOf s

/-- Helper for `replace` on a non-empty pattern `o :: os`.  Structural
recursion on a fuel bounded by the string length (a well-founded
recursion on `s.length` would not reduce inside the kernel); the fuel
never runs out because each step consumes at least one character. -/
def replaceNE (o : Char) (os new : Str) : Nat → Str → Str
  | 0, s => s
  | _ + 1, [] => []
  | fuel + 1, c :: rest =>
    if (o :: os).isPrefixOf (c :: rest) then
      new ++ replaceNE o os new fuel (rest.drop os.length)
    else
      c :: replaceNE o os new fuel rest

/-- Python `s.replace(old, new)`: replace every non-overlapping occurrence
of `old`, scanning left to right.  (CPython's behaviour for an empty
`old` — interleaving `new` everywhere — never arises here: every pattern
the source replaces is a non-empty literal.) -/
def replace (s old new : Str) : Str :=
  match old with
  | [] => s
  | o :: os => replaceNE o os new s.length s

/-- Helper for `split` on a non-empty separator `s0 :: ss` (fuel as in
`replaceNE`). -/
def splitNE (s0 : Char) (ss : Str) : Nat → Str → Str → List Str
  | 0, s, acc => [acc.reverse ++ s]
  | _ + 1, [], acc => [acc.reverse]
  | fuel + 1, c :: rest, acc =>
    if (s0 :: ss).isPrefixOf (c :: rest) then
      acc.reverse :: splitNE s0 ss fuel (rest.drop ss.length) []
    else
      splitNE s0 ss fuel rest (c :: acc)

/-- Python `s.split(sep)` for a non-empty separator (the only use in the
source; CPython raises `ValueError` on an empty separator). -/
def split (s sep : Str) : List Str :=
  match sep with
  | [] => [s]
  | s0 :: ss => splitNE s0 ss s.length s []

/-- Python `s.strip()`. -/
def strip (s : Str) : Str :=
  ((s.dropWhile (isSpaceChar ·)).reverse.dropWhile (isSpaceChar ·)).reverse

/-- Python `s.lower()` (ASCII, which covers every name in the source). -/
def lower (s : Str) : Str :=
  s.map fun c => if 'A' ≤ c && c ≤ 'Z' then Char.ofNat (c.toNat + 32) else c

end PyStr

/-!
## `src/ast_indexer.py` — `ASTIndexer` exclusions and class extraction
-/

namespace ASTIndexer

open PyStr

/-- `ASTIndexer.EXCLUSIONS` (`src/ast_indexer.py:220`):
`{'autosar', 'parent', 'tag', 'text', 'tail', 'Element'}`.  A Python set
literal; iteration order is irrelevant because `_should_exclude` only
asks whether *any* entry matches. -/
def EXCLUSIONS : List Str :=
  [pyS "autosar", pyS "parent", pyS "tag", pyS "text", pyS "tail", pyS "Element"]

/-- `ASTIndexer._should_exclude` (`src/ast_indexer.py:276-284`):
```python
if name.startswith('_'): return True
if any(exc in name.lower() for exc in self.EXCLUSIONS): return True
return False
``` -/
def shouldExclude (name : Str) : Bool :=
  if startswith name (pyS "_") then true
  else if EXCLUSIONS.any (fun exc => contains (lower name) exc) then true
  else false

/-- A runtime Python class, as seen by `ASTIndexer._extract_class_info`:
its `__mro__` is a list of classes, each with a `__name__` and a
`__module__`; `directBases` records the class's *direct* (`__bases__`)
superclass names, which Python guarantees appear in the MRO. -/
structure MroEntry where
  name : Str
  module : Str
deriving DecidableEq, Repr

structure PyClass where
  name : Str
  mro : List MroEntry
  directBases : List MroEntry
deriving DecidableEq, Repr

/-- The base-extraction loop of `ASTIndexer._extract_class_info`
(`src/ast_indexer.py:378-385`):
```python
bases = []
if hasattr(cls, '__mro__'):
    for base in cls.__mro__:
        if base.__name__ != name and base.__name__ != 'object':
            if hasattr(base, '__module__') and base.__module__ and \
               'autosarfactory' in str(base.__module__):
                bases.append(base.__name__)
```
(`name` is the dictionary key under which the class is being indexed,
which equals the class's own name.) -/
def extractBases (name : Str) (cls : PyClass) : List Str :=
  (cls.mro.filter fun base =>
    base.name ≠ name && base.name ≠ pyS "object" &&
      base.module ≠ [] && contains base.module (pyS "autosarfactory")).map
    (·.name)

/-- The spec's reading of `ClassInfo.bases` ("list of direct base-class
names (only those belonging to the target library)"): the *immediate*
bases, restricted to library-internal classes.  Stated from the spec's
words, for comparison with `extractBases` above. -/
def claimDirectBases (cls : PyClass) : List Str :=
  (cls.directBases.filter fun base =>
    contains base.module (pyS "autosarfactory")).map (·.name)

/-- The module string of the target library's implementation module. -/
def afModule : Str := pyS "autosarfactory.autosarfactory"

/-- A three-level single-inheritance chain as Python would present it:
`class ARObject`, `class Cluster(ARObject)`, `class CanCluster(Cluster)`,
all defined in the `autosarfactory.autosarfactory` module.  The MRO of
`CanCluster` is `[CanCluster, Cluster, ARObject, object]` and its only
direct base is `Cluster`. -/
def exCanCluster : PyClass where
  name := pyS "CanCluster"
  mro := [⟨pyS "CanCluster", afModule⟩, ⟨pyS "Cluster", afModule⟩,
          ⟨pyS "ARObject", afModule⟩, ⟨pyS "object", pyS "builtins"⟩]
  directBases := [⟨pyS "Cluster", afModule⟩]

/-- `Parameter` (`src/ast_indexer.py:23-29`). -/
structure Param where
  name : Str
  type_hint : Option Str := none
  default : Option Str := none
  is_required : Bool := true
deriving DecidableEq, Repr

/-- `MethodSignature` (`src/ast_indexer.py:32-43`). -/
structure MethodSig where
  name : Str
  parameters : List Param := []
  return_type : Option Str := none
  parent_class : Str := []
  docstring : Option Str := none
  is_factory : Bool := false
  is_setter : Bool := false
  is_getter : Bool := false
deriving DecidableEq, Repr

/-- `ClassInfo` (`src/ast_indexer.py:71-82`). -/
structure ClassInfoL where
  name : Str
  bases : List Str := []
  is_abstract : Bool := false
  can_instantiate : Bool := true
  docstring : Option Str := none
  factory_methods : List MethodSig := []
  setters : List MethodSig := []
  getters : List MethodSig := []
  other_methods : List MethodSig := []
deriving DecidableEq, Repr

/-- `ClassInfo.get_all_methods` (`src/ast_indexer.py:84-86`). -/
def ClassInfoL.get_all_methods (c : ClassInfoL) : List MethodSig :=
  c.factory_methods ++ c.setters ++ c.getters ++ c.other_methods

/-- `SymbolTable` data (`src/ast_indexer.py:127-136`): the two dicts,
modelled as insertion-ordered association lists (CPython dicts preserve
insertion order, which is what `json.dump` serialises). -/
structure SymbolTableL where
  classes : List (Str × ClassInfoL) := []
  module_functions : List (Str × MethodSig) := []
deriving DecidableEq, Repr

/-- JSON values as `json.dump` sees them. -/
inductive Json where
  | null : Json
  | bool : Bool → Json
  | num : Nat → Json
  | str : Str → Json
  | arr : List Json → Json
  | obj : List (Str × Json) → Json
deriving Repr

/-- `Optional[str]` fields serialise as the string or `null`. -/
def optStrJson : Option Str → Json
  | none => Json.null
  | some s => Json.str s

/-- `asdict(p)` for a `Parameter` dataclass (field declaration order). -/
def paramToDict (p : Param) : Json :=
  Json.obj [(pyS "name", Json.str p.name),
            (pyS "type_hint", optStrJson p.type_hint),
            (pyS "default", optStrJson p.default),
            (pyS "is_required", Json.bool p.is_required)]

/-- `MethodSignature.to_dict` (`src/ast_indexer.py:44-54`). -/
def methodToDict (m : MethodSig) : Json :=
  Json.obj [(pyS "name", Json.str m.name),
            (pyS "parameters", Json.arr (m.parameters.map paramToDict)),
            (pyS "return_type", optStrJson m.return_type),
            (pyS "parent_class", Json.str m.parent_class),
            (pyS "docstring", optStrJson m.docstring),
            (pyS "is_factory", Json.bool m.is_factory),
            (pyS "is_setter", Json.bool m.is_setter),
            (pyS "is_getter", Json.bool m.is_getter)]

/-- `ClassInfo.to_dict` (`src/ast_indexer.py:99-110`). -/
def classToDict (c : ClassInfoL) : Json :=
  Json.obj [(pyS "name", Json.str c.name),
            (pyS "bases", Json.arr (c.bases.map Json.str)),
            (pyS "is_abstract", Json.bool c.is_abstract),
            (pyS "can_instantiate", Json.bool c.can_instantiate),
            (pyS "docstring", optStrJson c.docstring),
            (pyS "factory_methods", Json.arr (c.factory_methods.map methodToDict)),
            (pyS "setters", Json.arr (c.setters.map methodToDict)),
            (pyS "getters", Json.arr (c.getters.map methodToDict)),
            (pyS "other_methods", Json.arr (c.other_methods.map methodToDict))]

/-- The `"classes"` entry of `SymbolTable.to_dict`. -/
def classesDict (st : SymbolTableL) : Json :=
  Json.obj (st.classes.map fun (n, c) => (n, classToDict c))

/-- The `"module_functions"` entry of `SymbolTable.to_dict`. -/
def moduleFunctionsDict (st : SymbolTableL) : Json :=
  Json.obj (st.module_functions.map fun (n, m) => (n, methodToDict m))

/-- The `"metadata"` entry of `SymbolTable.to_dict`
(`src/ast_indexer.py:197-201`). -/
def metadataFields (st : SymbolTableL) : List (Str × Json) :=
  [(pyS "total_classes", Json.num st.classes.length),
   (pyS "total_methods",
     Json.num (st.classes.map fun (_, c) => c.get_all_methods.length).sum),
   (pyS "total_module_functions", Json.num st.module_functions.length)]

/-- `SymbolTable.to_dict` (`src/ast_indexer.py:193-202`). -/
def tableToDict (st : SymbolTableL) : Json :=
  Json.obj [(pyS "classes", classesDict st),
            (pyS "module_functions", moduleFunctionsDict st),
            (pyS "metadata", Json.obj (metadataFields st))]

/-- `ASTIndexer._save_cache` (`src/ast_indexer.py:261-274`): takes
`to_dict()` and then assigns
`cache_data["metadata"]["generated_at"] = datetime.now().isoformat()`,
which appends the new key at the end of the metadata dict.  `now` is the
wall-clock timestamp at save time, an input of the model. -/
def saveCacheData (st : SymbolTableL) (generatedAt : Str) : Json :=
  Json.obj [(pyS "classes", classesDict st),
            (pyS "module_functions", moduleFunctionsDict st),
            (pyS "metadata",
              Json.obj (metadataFields st ++
                [(pyS "generated_at", Json.str generatedAt)]))]

/-- Decimal digits of a natural number, with structural fuel so the
kernel can evaluate it. -/
def natDigits : Nat → Nat → Str
  | 0, _ => []
  | fuel + 1, n =>
    if n = 0 then [] else natDigits fuel (n / 10) ++ [Char.ofNat (48 + n % 10)]

/-- Decimal rendering of a natural number (Python `repr` of an `int`). -/
def natToStr (n : Nat) : Str := if n = 0 then pyS "0" else natDigits (n + 1) n

/-- Two-digit lowercase hex rendering, for `\u00XX` escapes. -/
def hexDigit (n : Nat) : Char :=
  if n < 10 then Char.ofNat (48 + n) else Char.ofNat (87 + n)

/-- JSON string escaping as `json.dump(..., ensure_ascii=False)` performs
it: backslash, double quote and ASCII control characters are escaped,
everything else is emitted raw. -/
def escapeJsonChar (c : Char) : Str :=
  if c = '"' then pyS "\\\""
  else if c = '\\' then pyS "\\\\"
  else if c = '\n' then pyS "\\n"
  else if c = '\t' then pyS "\\t"
  else if c = '\r' then pyS "\\r"
  else if c = Char.ofNat 8 then pyS "\\b"
  else if c = Char.ofNat 12 then pyS "\\f"
  else if c.toNat < 32 then
    pyS "\\u00" ++ [hexDigit (c.toNat / 16), hexDigit (c.toNat % 16)]
  else [c]

def escapeJsonStr (s : Str) : Str :=
  [ '"' ] ++ (s.map escapeJsonChar).flatten ++ [ '"' ]

/-- The indentation prefix at nesting depth `level` for `indent=2`. -/
def jsonIndent (level : Nat) : Str := List.replicate (2 * level) ' '

mutual

/-- `json.dump(v, indent=2, ensure_ascii=False)` rendering of a value
nested at depth `level`. -/
def dumpJson (level : Nat) : Json → Str
  | Json.null => pyS "null"
  | Json.bool true => pyS "true"
  | Json.bool false => pyS "false"
  | Json.num n => natToStr n
  | Json.str s => escapeJsonStr s
  | Json.arr [] => pyS "[]"
  | Json.arr (v :: vs) =>
    pyS "[\n" ++ dumpJsonItems level (v :: vs) ++ pyS "\n" ++
      jsonIndent level ++ pyS "]"
  | Json.obj [] => pyS "\x7b\x7d"
  | Json.obj (kv :: kvs) =>
    pyS "\x7b\n" ++ dumpJsonMembers level (kv :: kvs) ++ pyS "\n" ++
      jsonIndent level ++ pyS "\x7d"

def dumpJsonItems (level : Nat) : List Json → Str
  | [] => []
  | [v] => jsonIndent (level + 1) ++ dumpJson (level + 1) v
  | v :: v' :: vs =>
    jsonIndent (level + 1) ++ dumpJson (level + 1) v ++ pyS ",\n" ++
      dumpJsonItems level (v' :: vs)

def dumpJsonMembers (level : Nat) : List (Str × Json) → Str
  | [] => []
  | [(k, v)] =>
    jsonIndent (level + 1) ++ escapeJsonStr k ++ pyS ": " ++
      dumpJson (level + 1) v
  | (k, v) :: kv' :: kvs =>
    jsonIndent (level + 1) ++ escapeJsonStr k ++ pyS ": " ++
      dumpJson (level + 1) v ++ pyS ",\n" ++ dumpJsonMembers level (kv' :: kvs)

end

/-- The bytes `_save_cache` writes for symbol table `st` at time `now`. -/
def saveCacheBytes (st : SymbolTableL) (now : Str) : Str :=
  dumpJson 0 (saveCacheData st now)

mutual

/-- Replace the value of every `"generated_at"` key by `null`, leaving
everything else intact (used to state what part of the cache is
timestamp-dependent). -/
def scrubGeneratedAt : Json → Json
  | Json.obj fields => Json.obj (scrubMembers fields)
  | Json.arr vs => Json.arr (scrubItems vs)
  | v => v

def scrubItems : List Json → List Json
  | [] => []
  | v :: vs => scrubGeneratedAt v :: scrubItems vs

def scrubMembers : List (Str × Json) → List (Str × Json)
  | [] => []
  | (k, v) :: kvs =>
    (if k = pyS "generated_at" then (k, Json.null)
     else (k, scrubGeneratedAt v)) :: scrubMembers kvs

end

end ASTIndexer


/-!
## `src/knowledge_base.py` — the Hallucination Fix Table and its
replacement pass (`ValidationPipeline.quick_fix`,
`PreGenerationValidator._apply_auto_fixes`)
-/

namespace HallucinationTable

open PyStr

/-- `HALLUCINATION_FIXES` (`src/knowledge_base.py:122-155`), in dict
insertion order (CPython dicts iterate in insertion order, which is the
order the replacement loops below apply). -/
def HALLUCINATION_FIXES : List (Str × Str) :=
  [(pyS "new_SwcInternalBehavior", pyS "new_InternalBehavior"),
   (pyS "new_RunnableEntity", pyS "new_Runnable"),
   (pyS "new_DataReadAccess", pyS "new_DataReadAcces"),
   (pyS "new_DataWriteAccess", pyS "new_DataWriteAcces"),
   (pyS "new_VariableDataPrototype", pyS "new_DataElement"),
   (pyS "new_ServiceEvent", pyS "new_Event"),
   (pyS "new_SwComponentPrototype", pyS "new_Component"),
   (pyS "new_ComponentPrototype", pyS "new_Component"),
   (pyS "new_SomeIpServiceInterfaceDeployment",
    pyS "new_SomeipServiceInterfaceDeployment"),
   (pyS "new_SomeIpEventDeployment", pyS "new_SomeipEventDeployment"),
   (pyS "new_SomeIpMethodDeployment", pyS "new_SomeipMethodDeployment"),
   (pyS "new_SwcToEcuMapping", pyS "new_SwMapping"),
   (pyS "new_SoftwareComponentToEcuMapping", pyS "new_SwMapping"),
   (pyS "set_targetDataPrototype", pyS "set_targetDataElement"),
   (pyS "set_variableDataPrototype", pyS "set_targetDataPrototype"),
   (pyS "set_communicationCluster", pyS "set_commController"),
   (pyS "new_SignalServiceTranslationProps",
    pyS "new_SignalServiceTranslationProp")]

/-- One step of the replacement loop shared by
`ValidationPipeline.quick_fix` (`src/validation_engine.py:588-592`) and
`PreGenerationValidator._apply_auto_fixes`
(`src/validation_engine.py:522-527`):
```python
for wrong, correct in HALLUCINATION_FIXES.items():
    if wrong in code:
        code = code.replace(wrong, correct)
        fixes.append(f"{wrong} -> {correct}")
```
Parameterised by the table so the loop can be reasoned about by
induction; the source always runs it on `HALLUCINATION_FIXES`. -/
def applyFixPassWith (table : List (Str × Str)) (code : Str) :
    Str × List Str :=
  table.foldl
    (fun (acc : Str × List Str) p =>
      if contains acc.1 p.1 then
        (replace acc.1 p.1 p.2, acc.2 ++ [p.1 ++ pyS " -> " ++ p.2])
      else acc)
    (code, [])

/-- The Hallucination Fix Table replacement pass applied to `code`. -/
def applyFixPass (code : Str) : Str × List Str :=
  applyFixPassWith HALLUCINATION_FIXES code

/-- Just the rewritten code of the pass. -/
def fixPassCode (code : Str) : Str := (applyFixPass code).1

end HallucinationTable


/-!
## `src/executor.py` — `Executor.run_script`
-/

namespace Executor

open PyStr

/-- A Python exception as the harness observes it: `type(e).__name__`
and `str(e)`. -/
structure PyExn where
  typeName : Str
  message : Str
deriving DecidableEq, Repr

/-- The structured error dictionary built by `Executor._parse_error` and
the two `except` branches of `run_script`. -/
structure ErrorInfo where
  type_ : Str
  message : Str
  line : Option Nat := none
  traceback : Str
deriving DecidableEq, Repr

/-- `re.search(r'(\w+Error):', stderr)`: the first position admitting a
match of a word-run ending in `Error` followed by `:`; the returned
group is that word-run.  (The greedy `\w+` with backtracking matches at
position `i` iff the maximal word-run there has length ≥ 6, ends with
`Error`, and is followed by `:`.) -/
def findErrorType : Str → Option Str
  | [] => none
  | c :: rest =>
    let run := (c :: rest).takeWhile (isWordChar ·)
    if 6 ≤ run.length && endswith run (pyS "Error") &&
        startswith ((c :: rest).drop run.length) (pyS ":") then
      some run
    else
      findErrorType rest

/-- Digits-to-number for a matched `\d+` group. -/
def digitsToNat (ds : Str) : Nat :=
  ds.foldl (fun n c => 10 * n + (c.toNat - 48)) 0

/-- `re.search(r'line (\d+)', stderr)`: the first occurrence of the
literal `line ` followed by at least one digit; the group is the maximal
digit-run. -/
def findLineNum : Str → Option Nat
  | [] => none
  | c :: rest =>
    let after := (c :: rest).drop 5
    let headIsDigit :=
      match after.head? with
      | some d => isDigitChar d
      | none => false
    if startswith (c :: rest) (pyS "line ") && headIsDigit then
      some (digitsToNat (after.takeWhile (isDigitChar ·)))
    else
      findLineNum rest

/-- `Executor._parse_error` (`src/executor.py:8-43`). -/
def parseError (stderr : Str) : ErrorInfo :=
  let type_ := (findErrorType stderr).getD (pyS "Unknown")
  let line := findLineNum stderr
  let lines := split (strip stderr) (pyS "\n")
  let message :=
    match lines.getLast? with
    | some m => m
    | none => stderr
  { type_ := type_, message := message, line := line, traceback := stderr }

/-- Result of the `subprocess.run` call: normal completion with exit
code and captured streams, `subprocess.TimeoutExpired`, or some other
exception raised by the harness's subprocess machinery. -/
inductive RunOutcome where
  | completed (returncode : Int) (stdout stderr : Str)
  | timeoutExpired
  | exn (e : PyExn)
deriving DecidableEq, Repr

/-- What `run_script` hands back on the failure path. -/
inductive RunValue where
  | out (stdout : Str)
  | err (info : ErrorInfo)
deriving DecidableEq, Repr

/-- `Executor.run_script` (`src/executor.py:45-99`), as a function of the
outcomes of its three effectful steps: writing the script file (which the
source performs *before* entering the `try` block), running the
subprocess, and writing `error_log.txt` (inside the `try` block, on the
nonzero-exit path).  An `Except.error` result models an exception
propagating to the caller. -/
def runScript (timeout : Nat)
    (writeScript : Except PyExn Unit)
    (run : RunOutcome)
    (writeLog : Except PyExn Unit) :
    Except PyExn (Bool × RunValue) :=
  match writeScript with
  | .error e => .error e
  | .ok _ =>
    match run with
    | .timeoutExpired =>
      .ok (false, .err
        { type_ := pyS "TimeoutError"
          message := pyS "Script execution exceeded " ++
            ASTIndexer.natToStr timeout ++ pyS " seconds"
          line := none
          traceback := pyS "Timeout after " ++
            ASTIndexer.natToStr timeout ++ pyS "s" })
    | .exn e =>
      .ok (false, .err
        { type_ := e.typeName, message := e.message, line := none,
          traceback := e.message })
    | .completed rc out errS =>
      if rc ≠ 0 then
        match writeLog with
        | .error e =>
          .ok (false, .err
            { type_ := e.typeName, message := e.message, line := none,
              traceback := e.message })
        | .ok _ => .ok (false, .err (parseError errS))
      else
        .ok (true, .out out)

end Executor


/-!
## `difflib` — `SequenceMatcher.ratio` and `get_close_matches`

The repository calls CPython's `difflib` in three places
(`error_feedback_manager.get_similar_errors`,
`api_validator._suggest_fix`, `knowledge_base.find_similar_method` /
`SymbolTable.find_similar_method`).  `difflib` is standard-library code,
not repository code; it is embedded here following its documented
algorithm: `ratio = 2*M/T` where `M` is the total size of the matching
blocks found by recursively taking the longest matching block (earliest
in `a`, then in `b`), and `T` the sum of the lengths.  The `autojunk`
popularity heuristic (which only activates when the second sequence has
≥ 200 characters) is not modelled; every string compared in this
development is far shorter.  Ratios are represented as exact fractions
`(numerator, denominator)` and compared by cross-multiplication, which
models the float comparisons exactly on the short strings involved.
-/

namespace Difflib

/-- Length of the common prefix of two sequences. -/
def commonRun : Str → Str → Nat
  | x :: xs, y :: ys => if x = y then commonRun xs ys + 1 else 0
  | _, _ => 0

/-- `SequenceMatcher.find_longest_match` over whole sequences (no junk):
the longest block `(i, j, k)` with `a[i:i+k] == b[j:j+k]`, preferring the
smallest `i`, then the smallest `j` (the scan updates only on a strictly
longer match, with `i` and `j` ascending). -/
def findLongestMatch (a b : Str) : Nat × Nat × Nat :=
  (List.range a.length).foldl
    (fun best i =>
      (List.range b.length).foldl
        (fun best j =>
          let k := commonRun (a.drop i) (b.drop j)
          if best.2.2 < k then (i, j, k) else best)
        best)
    (0, 0, 0)

/-- Total size of the matching blocks of `get_matching_blocks`:
recursively split at the longest match.  Structural fuel (the recursion
depth is bounded by `a.length`; see `sequenceMatcherM`). -/
def totalMatchSize : Nat → Str → Str → Nat
  | 0, _, _ => 0
  | fuel + 1, a, b =>
    let (i, j, k) := findLongestMatch a b
    if k = 0 then 0
    else
      totalMatchSize fuel (a.take i) (b.take j) + k +
        totalMatchSize fuel (a.drop (i + k)) (b.drop (j + k))

def sequenceMatcherM (a b : Str) : Nat := totalMatchSize (a.length + 1) a b

/-- `SequenceMatcher.ratio()` for `a` against `b` (`_calculate_ratio`):
`2.0 * M / T`, and `1.0` when both sequences are empty; kept as an exact
fraction with positive denominator. -/
def ratioFrac (a b : Str) : Nat × Nat :=
  let T := a.length + b.length
  if T = 0 then (1, 1) else (2 * sequenceMatcherM a b, T)

/-- `p ≤ q` on ratio fractions (denominators are positive). -/
def fracLe (p q : Nat × Nat) : Bool := p.1 * q.2 ≤ q.1 * p.2

def fracEq (p q : Nat × Nat) : Bool := p.1 * q.2 == q.1 * p.2

/-- Python string comparison (`<` on code points), used by
`heapq.nlargest` to break score ties. -/
def strLt : Str → Str → Bool
  | [], [] => false
  | [], _ :: _ => true
  | _ :: _, [] => false
  | x :: xs, y :: ys => if x = y then strLt xs ys else decide (x < y)

/-- "`p` sorts no later than `q`" in the descending `(score, string)`
order `heapq.nlargest` produces. -/
def pairGe (p q : (Nat × Nat) × Str) : Bool :=
  if fracEq p.1 q.1 then !strLt p.2 q.2 || p.2 == q.2
  else !fracLe p.1 q.1

/-- Stable insertion sort by a boolean "may come before" relation. -/
def insertBy (le : α → α → Bool) (x : α) : List α → List α
  | [] => [x]
  | y :: ys => if le x y then x :: y :: ys else y :: insertBy le x ys

def sortBy (le : α → α → Bool) : List α → List α
  | [] => []
  | x :: xs => insertBy le x (sortBy le xs)

/-- `difflib.get_close_matches(word, possibilities, n, cutoff)`:
filter the possibilities whose ratio against `word` reaches the cutoff,
order them by descending `(score, string)` and keep the best `n`. -/
def getCloseMatches (word : Str) (possibilities : List Str) (n : Nat)
    (cutoff : Nat × Nat) : List Str :=
  let scored := (possibilities.filter fun x =>
    fracLe cutoff (ratioFrac x word)).map fun x => (ratioFrac x word, x)
  ((sortBy pairGe scored).take n).map (·.2)

end Difflib

/-!
## `src/error_feedback_manager.py` — `ErrorFeedbackManager`
-/

namespace ErrorFeedback

/-- A stored error record, restricted to the fields that
`get_similar_errors` and `get_fix_suggestions` read
(`error_message`, `fix_applied`, `fix_successful`; `Option` models a
key that may be absent).  The remaining record fields (timestamps,
snippets, line numbers, ...) play no part in these lookups. -/
structure ErrorRecord where
  error_message : Option Str := none
  fix_applied : Option Str := none
  fix_successful : Bool := false
deriving DecidableEq, Repr

/-- `ErrorFeedbackManager.get_similar_errors`
(`src/error_feedback_manager.py:159-193`): collect close matches of the
query against the stored `error_message` strings (`.get` with default
`""`), then for each matched string append the *first* stored record
whose `error_message` equals it (`for error in past_errors: ... break`).
-/
def getSimilarErrors (errors : List ErrorRecord) (msg : Str)
    (limit : Nat) : List ErrorRecord :=
  match errors with
  | [] => []
  | _ :: _ =>
    let error_messages := errors.map fun e => e.error_message.getD []
    let close := Difflib.getCloseMatches msg error_messages limit (3, 5)
    close.foldl
      (fun similar m =>
        match errors.find? (fun e => e.error_message == some m) with
        | some e => similar ++ [e]
        | none => similar)
      []

/-- First-occurrence deduplication, structural so that it reduces in the
kernel. -/
def dedupFirst (seen : List Str) : List Str → List Str
  | [] => []
  | x :: xs =>
    if x ∈ seen then dedupFirst seen xs else x :: dedupFirst (x :: seen) xs

/-- `ErrorFeedbackManager.get_fix_suggestions`
(`src/error_feedback_manager.py:277-297`): the `fix_applied` strings of
similar records that were marked successful and carry a truthy (present
and non-empty) `fix_applied`, deduplicated (`list(set(...))`, modelled
as first-occurrence dedup — CPython's set order is
implementation-defined and the claims below use only membership) and
capped at 5. -/
def getFixSuggestions (errors : List ErrorRecord) (errorType : Str)
    (msg : Str) : List Str :=
  let _ := errorType  -- the source accepts `error_type` but never reads it
  let similar := getSimilarErrors errors msg 10
  let suggestions := similar.foldl
    (fun acc e =>
      match e.fix_applied with
      | some f => if e.fix_successful && f ≠ [] then acc ++ [f] else acc
      | none => acc)
    []
  (dedupFirst [] suggestions).take 5

end ErrorFeedback


/-!
## `src/api_validator.py` — `APIValidator`
-/

namespace APIValidator

open PyStr

/-- One entry of a class's `factory_methods` list in
`knowledge_graph.json` (`fm['method']`, `fm['return_type']`). -/
structure KBFactory where
  method : Str
  return_type : Str
deriving DecidableEq, Repr

/-- One entry of a class's `references` list (`ref['method']`,
`ref.get('type', 'Unknown')`). -/
structure KBRef where
  method : Str
  type_ : Option Str := none
deriving DecidableEq, Repr

/-- A class entry of the knowledge graph. -/
structure KBClassEntry where
  factory_methods : List KBFactory := []
  references : List KBRef := []
deriving DecidableEq, Repr

/-- The knowledge graph `APIValidator._load_knowledge_base` reads from
`knowledge_graph.json` — external data loaded from disk (the file is a
generated artifact, absent from the repository), modelled as an
insertion-ordered dict. -/
abbrev KB := List (Str × KBClassEntry)

/-- `self.factory_methods[class_name]` built by `_build_api_index`: the
set of `fm['method']` names (membership queries only). -/
def factoryMethodsOf (kb : KB) (cls : Str) : List Str :=
  match kb.find? (fun p => p.1 == cls) with
  | some (_, entry) => entry.factory_methods.map (·.method)
  | none => []

/-- `self.setter_methods[class_name]` keys built by `_build_api_index`. -/
def setterMethodsOf (kb : KB) (cls : Str) : List Str :=
  match kb.find? (fun p => p.1 == cls) with
  | some (_, entry) => entry.references.map (·.method)
  | none => []

def kbHasClass (kb : KB) (cls : Str) : Bool :=
  (kb.find? (fun p => p.1 == cls)).isSome

/-- A match of `(\w+)\.(new_\w+|set_\w+|get_\w+|add_\w+)\s*\(`. -/
structure ApiCall where
  variable_ : Str
  method : Str
  line : Nat
deriving DecidableEq, Repr

/-- Try the call pattern at the current position: a non-empty word-run,
a dot, a word-run starting with one of the four prefixes (and at least
one further word character), optional spaces and `(`; returns the groups
and the remainder after the match. -/
def matchCallAt (s : Str) : Option (Str × Str × Str) :=
  let var := s.takeWhile (isWordChar ·)
  if var = [] then none
  else
    match s.drop var.length with
    | '.' :: s2 =>
      let m := s2.takeWhile (isWordChar ·)
      if (startswith m (pyS "new_") || startswith m (pyS "set_") ||
          startswith m (pyS "get_") || startswith m (pyS "add_")) &&
          5 ≤ m.length then
        match (s2.drop m.length).dropWhile (isSpaceChar ·) with
        | '(' :: s4 => some (var, m, s4)
        | _ => none
      else none
    | _ => none

/-- `re.finditer` of the call pattern over one line: leftmost matches,
non-overlapping, continuing after each match. -/
def scanCalls (lineNum : Nat) : Nat → Str → List ApiCall
  | 0, _ => []
  | _ + 1, [] => []
  | fuel + 1, c :: rest =>
    match matchCallAt (c :: rest) with
    | some (v, m, rem) => ⟨v, m, lineNum⟩ :: scanCalls lineNum fuel rem
    | none => scanCalls lineNum fuel rest

/-- `APIValidator._extract_api_calls` (`src/api_validator.py:90-109`):
the pattern applied per line with `enumerate(lines, 1)` line numbers.
(The `full_line` field of each match is never read downstream and is not
modelled.) -/
def extractApiCalls (code : Str) : List ApiCall :=
  ((split code (pyS "\n")).enum.map fun (i, line) =>
    scanCalls (i + 1) line.length line).flatten

/-- Pattern 1 of `_infer_variable_type`:
`rf'{var_name}\s*=\s*\w+\.new_(\w+)\s*\('` tried at one position;
returns the `(\w+)` group after `new_`. -/
def matchAssignAt (var : Str) (s : Str) : Option Str :=
  if startswith s var then
    match (s.drop var.length).dropWhile (isSpaceChar ·) with
    | '=' :: s2 =>
      let s3 := s2.dropWhile (isSpaceChar ·)
      let w := s3.takeWhile (isWordChar ·)
      if w ≠ [] then
        match s3.drop w.length with
        | '.' :: s4 =>
          if startswith s4 (pyS "new_") then
            let g := (s4.drop 4).takeWhile (isWordChar ·)
            if g ≠ [] then
              match ((s4.drop 4).drop g.length).dropWhile (isSpaceChar ·) with
              | '(' :: _ => some g
              | _ => none
            else none
          else none
        | _ => none
      else none
    | _ => none
  else none

/-- `re.search` of pattern 1 over one line. -/
def searchAssign (var : Str) : Str → Option Str
  | [] => none
  | c :: rest =>
    match matchAssignAt var (c :: rest) with
    | some g => some g
    | none => searchAssign var rest

/-- Pattern 2 of `_infer_variable_type`:
`rf'{var_name}\s*=\s*autosarfactory\.(new_file|read)\s*\('` at one
position; returns the matched alternative. -/
def matchEntryAt (var : Str) (s : Str) : Option Str :=
  if startswith s var then
    match (s.drop var.length).dropWhile (isSpaceChar ·) with
    | '=' :: s2 =>
      let s3 := s2.dropWhile (isSpaceChar ·)
      if startswith s3 (pyS "autosarfactory.") then
        let s4 := s3.drop 15
        if startswith s4 (pyS "new_file") &&
            (match (s4.drop 8).dropWhile (isSpaceChar ·) with
             | '(' :: _ => true
             | _ => false) then
          some (pyS "new_file")
        else if startswith s4 (pyS "read") &&
            (match (s4.drop 4).dropWhile (isSpaceChar ·) with
             | '(' :: _ => true
             | _ => false) then
          some (pyS "read")
        else none
      else none
    | _ => none
  else none

def searchEntry (var : Str) : Str → Option Str
  | [] => none
  | c :: rest =>
    match matchEntryAt var (c :: rest) with
    | some f => some f
    | none => searchEntry var rest

/-- The `type_hints` table of `_infer_variable_type`
(`src/api_validator.py:150-166`), in dict insertion order. -/
def typeHints : List (Str × Str) :=
  [(pyS "cluster", pyS "CanCluster"),
   (pyS "frame", pyS "CanFrame"),
   (pyS "signal", pyS "ISignal"),
   (pyS "pdu", pyS "ISignalIPdu"),
   (pyS "swc", pyS "ApplicationSwComponentType"),
   (pyS "component", pyS "ApplicationSwComponentType"),
   (pyS "interface", pyS "SenderReceiverInterface"),
   (pyS "port", pyS "RPortPrototype"),
   (pyS "behavior", pyS "SwcInternalBehavior"),
   (pyS "runnable", pyS "RunnableEntity"),
   (pyS "event", pyS "TimingEvent"),
   (pyS "channel", pyS "CanPhysicalChannel"),
   (pyS "root", pyS "ARPackage"),
   (pyS "pkg", pyS "ARPackage"),
   (pyS "package", pyS "ARPackage")]

/-- The factory-return lookup of pattern 1
(`src/api_validator.py:126-134`): the first class (dict order) whose
factory set contains `new_{g}` supplies the `return_type` of its first
matching entry; otherwise the literal suffix `g` is assumed. -/
def pattern1Lookup (kb : KB) (g : Str) : Str :=
  let target := pyS "new_" ++ g
  match kb.find? (fun p => (p.2.factory_methods.map (·.method)).contains target) with
  | some (_, entry) =>
    match entry.factory_methods.find? (fun fm => fm.method == target) with
    | some fm => fm.return_type
    | none => g
  | none => g

/-- `APIValidator._infer_variable_type` (`src/api_validator.py:111-173`):
assignment from a factory call, else a module-level entry point, else the
naming-convention hints, else `None`. -/
def inferVariableType (kb : KB) (code : Str) (var : Str) : Option Str :=
  let lines := split code (pyS "\n")
  match lines.findSome? (searchAssign var) with
  | some g => some (pattern1Lookup kb g)
  | none =>
    match lines.findSome? (searchEntry var) with
    | some f =>
      if f == pyS "new_file" then some (pyS "ARPackage")
      else some (pyS "AUTOSAR")
    | none =>
      typeHints.findSome? fun (hint, tyName) =>
        if contains (lower var) hint then some tyName else none

/-- `APIValidator._validate_method_on_type`
(`src/api_validator.py:175-198`). -/
def validateMethodOnType (kb : KB) (cls method : Str) : Bool × Str :=
  if kbHasClass kb cls = false then (true, [])
  else if startswith method (pyS "new_") then
    if (factoryMethodsOf kb cls).contains method then (true, [])
    else
      (false, pyS "'" ++ cls ++ pyS "' has no factory method '" ++
        method ++ pyS "'")
  else if startswith method (pyS "set_") then
    if (setterMethodsOf kb cls).contains method then (true, [])
    else
      (false, pyS "'" ++ cls ++ pyS "' has no setter method '" ++
        method ++ pyS "'")
  else (true, [])

/-- The `common_fixes` table of `_suggest_fix`
(`src/api_validator.py:217-223`). -/
def commonFixes : List (Str × Str) :=
  [(pyS "new_SwcInternalBehavior", pyS "new_InternalBehavior"),
   (pyS "new_RunnableEntity", pyS "new_Runnable"),
   (pyS "new_DataReadAccess", pyS "new_DataReadAcces"),
   (pyS "new_DataWriteAccess", pyS "new_DataWriteAcces"),
   (pyS "new_VariableDataPrototype", pyS "new_DataElement")]

/-- `APIValidator._suggest_fix` (`src/api_validator.py:200-228`).
`list(set(...))` order is implementation-defined in CPython; it is
modelled as first-occurrence dedup — `get_close_matches` output depends
on the candidate collection only through membership, because its sort
orders fully by `(score, string)`. -/
def suggestFix (kb : KB) (cls wrong : Str) : Option Str :=
  if kbHasClass kb cls = false then none
  else
    let validMethods :=
      ErrorFeedback.dedupFirst [] (factoryMethodsOf kb cls) ++
        setterMethodsOf kb cls
    match Difflib.getCloseMatches wrong validMethods 1 (3, 5) with
    | m :: _ =>
      some (pyS "Use '" ++ m ++ pyS "' instead of '" ++ wrong ++ pyS "'")
    | [] =>
      match commonFixes.find? (fun p => p.1 == wrong) with
      | some p => some (pyS "Use '" ++ p.2 ++ pyS "' instead")
      | none => none

/-- One position of `\.new_(\w+)Ref\(\)\.set_value\(`: a dot,
`new_`, a word-run of length ≥ 4 ending in `Ref` (the greedy `\w+` with
the literal `Ref()` behind it), then `().set_value(`. -/
def matchRefOpenAt : Str → Bool
  | '.' :: s1 =>
    if startswith s1 (pyS "new_") then
      let w := (s1.drop 4).takeWhile (isWordChar ·)
      4 ≤ w.length && endswith w (pyS "Ref") &&
        startswith ((s1.drop 4).drop w.length) (pyS "().set_value(")
    else false
  | _ => false

def searchRefOpen : Str → Bool
  | [] => false
  | c :: rest => matchRefOpenAt (c :: rest) || searchRefOpen rest

/-- `re.search(r'set_packingByteOrder\(["\']', code)`. -/
def searchByteOrderStr : Str → Bool
  | [] => false
  | c :: rest =>
    (startswith (c :: rest) (pyS "set_packingByteOrder(\"") ||
      startswith (c :: rest) (pyS "set_packingByteOrder('")) ||
      searchByteOrderStr rest

/-- One position of `autosarfactory\.save\([^)]+\)`: the literal call
opener followed by a non-empty run without `)` that is terminated by
`)`. -/
def matchSaveArgsAt (s : Str) : Bool :=
  if startswith s (pyS "autosarfactory.save(") then
    let body := (s.drop 20).takeWhile (· ≠ ')')
    body ≠ [] && startswith ((s.drop 20).drop body.length) (pyS ")")
  else false

def searchSaveArgs : Str → Bool
  | [] => false
  | c :: rest => matchSaveArgsAt (c :: rest) || searchSaveArgs rest

/-- `APIValidator._check_anti_patterns`
(`src/api_validator.py:230-251`).  (The fourth entry is appended to the
*errors* list by the source even though its text says `Warning`.) -/
def checkAntiPatterns (code : Str) : List Str :=
  (if searchRefOpen code then
    [pyS "Anti-pattern: Using new_*Ref().set_value() - Use direct setters like set_frame(), set_iSignal() instead"]
   else []) ++
  (if searchByteOrderStr code then
    [pyS "Anti-pattern: Using string for ByteOrder - Use autosarfactory.ByteOrderEnum.VALUE_MOST_SIGNIFICANT_BYTE_LAST instead"]
   else []) ++
  (if searchSaveArgs code then
    [pyS "Anti-pattern: save() takes no parameters - Use autosarfactory.save() or autosarfactory.saveAs(filename)"]
   else []) ++
  (if contains code (pyS "try:") = false || contains code (pyS "except") = false then
    [pyS "Warning: No error handling - Consider adding try/except block"]
   else [])

/-- The per-call step of `APIValidator.validate_code`
(`src/api_validator.py:62-81`): accumulate into `(errors, warnings)`. -/
def validateCodeStep (kb : KB) (code : Str) (acc : List Str × List Str)
    (call : ApiCall) : List Str × List Str :=
  match inferVariableType kb code call.variable_ with
  | some varType =>
    let vm := validateMethodOnType kb varType call.method
    if vm.1 then acc
    else
      let withErr := acc.1 ++
        [pyS "Line " ++ ASTIndexer.natToStr call.line ++ pyS ": " ++ vm.2]
      match suggestFix kb varType call.method with
      | some sug => (withErr ++ [pyS "  → Suggestion: " ++ sug], acc.2)
      | none => (withErr, acc.2)
  | none =>
    (acc.1,
      acc.2 ++ [pyS "Line " ++ ASTIndexer.natToStr call.line ++
        pyS ": Cannot infer type of '" ++ call.variable_ ++
        pyS "' to validate '" ++ call.method ++ pyS "'"])

/-- `APIValidator.validate_code` (`src/api_validator.py:49-88`):
`(is_valid, errors, warnings)`. -/
def validateCode (kb : KB) (code : Str) : Bool × List Str × List Str :=
  let calls := extractApiCalls code
  let (errors, warnings) := calls.foldl (validateCodeStep kb code) ([], [])
  let errors := errors ++ checkAntiPatterns code
  (errors.isEmpty, errors, warnings)

end APIValidator


/-!
## `src/fixer.py` — the tiered `Fixer`
-/

namespace Fixer

open PyStr

/-- The `error_fixes` table of `Fixer._apply_deterministic_fixes`
(`src/fixer.py:238-264`), in dict insertion order; the final
`set_value` entry maps to `None` ("special handling needed") and is
skipped by the loop's `and fix` truthiness test. -/
def errorFixes : List (Str × Option (Str × Str)) :=
  [(pyS "has no attribute 'new_SwcInternalBehavior'",
    some (pyS "new_SwcInternalBehavior", pyS "new_InternalBehavior")),
   (pyS "has no attribute 'new_RunnableEntity'",
    some (pyS "new_RunnableEntity", pyS "new_Runnable")),
   (pyS "has no attribute 'new_DataReadAccess'",
    some (pyS "new_DataReadAccess", pyS "new_DataReadAcces")),
   (pyS "has no attribute 'new_DataWriteAccess'",
    some (pyS "new_DataWriteAccess", pyS "new_DataWriteAcces")),
   (pyS "has no attribute 'new_VariableDataPrototype'",
    some (pyS "new_VariableDataPrototype", pyS "new_DataElement")),
   (pyS "has no attribute 'new_ServiceEvent'",
    some (pyS "new_ServiceEvent", pyS "new_Event")),
   (pyS "has no attribute 'new_SwComponentPrototype'",
    some (pyS "new_SwComponentPrototype", pyS "new_Component")),
   (pyS "has no attribute 'new_ComponentPrototype'",
    some (pyS "new_ComponentPrototype", pyS "new_Component")),
   (pyS "has no attribute 'new_SomeIpServiceInterfaceDeployment'",
    some (pyS "new_SomeIpServiceInterfaceDeployment",
      pyS "new_SomeipServiceInterfaceDeployment")),
   (pyS "has no attribute 'new_SomeIpEventDeployment'",
    some (pyS "new_SomeIpEventDeployment", pyS "new_SomeipEventDeployment")),
   (pyS "has no attribute 'set_value'", none)]

/-- `Fixer._apply_deterministic_fixes` (`src/fixer.py:232-272`): the
first table entry whose error pattern occurs in the error message, whose
fix is not `None`, and whose wrong identifier occurs in the code,
triggers a global replace; otherwise the code is returned unchanged.
(`error_type` is accepted but never read by the source body.) -/
def applyDetFixesAux (code errorMessage : Str) :
    List (Str × Option (Str × Str)) → Str
  | [] => code
  | (pat, fix) :: rest =>
    match fix with
    | some (old, new) =>
      if contains errorMessage pat then
        if contains code old then replace code old new
        else applyDetFixesAux code errorMessage rest
      else applyDetFixesAux code errorMessage rest
    | none => applyDetFixesAux code errorMessage rest

def applyDeterministicFixes (code errorMessage errorType : Str) : Str :=
  let _ := errorType
  applyDetFixesAux code errorMessage errorFixes

/-- One position of `\.new_(\w+)Ref\(\)\.set_value\((\w+)\)`
(`Fixer._apply_pattern_fixes`, `src/fixer.py:283`): returns the captured
ref type (without the `Ref` suffix), the captured value, and the
remainder after the match. -/
def matchRefSubAt : Str → Option (Str × Str × Str)
  | '.' :: s1 =>
    if startswith s1 (pyS "new_") then
      let w := (s1.drop 4).takeWhile (isWordChar ·)
      if 4 ≤ w.length && endswith w (pyS "Ref") then
        let s2 := (s1.drop 4).drop w.length
        if startswith s2 (pyS "().set_value(") then
          let s3 := s2.drop 13
          let v := s3.takeWhile (isWordChar ·)
          if v ≠ [] && startswith (s3.drop v.length) (pyS ")") then
            some (w.take (w.length - 3), v, (s3.drop v.length).drop 1)
          else none
        else none
      else none
    else none
  | _ => none

/-- The replacement function `ref_replacement` (`src/fixer.py:284-289`):
`.set_{ref_type[0].lower() + ref_type[1:]}({value})`. -/
def refReplacement (refType value : Str) : Str :=
  match refType with
  | [] => pyS ".set_(" ++ value ++ pyS ")"
  | g0 :: grest => pyS ".set_" ++ (lower [g0] ++ grest) ++
      pyS "(" ++ value ++ pyS ")"

/-- `re.sub` of the reference pattern (leftmost, non-overlapping). -/
def subRefSetValue : Nat → Str → Str
  | 0, s => s
  | _ + 1, [] => []
  | fuel + 1, c :: rest =>
    match matchRefSubAt (c :: rest) with
    | some (g, v, rem) => refReplacement g v ++ subRefSetValue fuel rem
    | none => c :: subRefSetValue fuel rest

/-- One position of
`set_packingByteOrder\(["\']MOST-SIGNIFICANT-BYTE-...["\']\)`:
either quote is accepted on each side independently. -/
def matchByteOrderAt (which : Str) (s : Str) : Option Str :=
  if startswith s (pyS "set_packingByteOrder(") then
    match s.drop 21 with
    | q1 :: s2 =>
      if (q1 = '"' || q1 = '\'') && startswith s2 which then
        match s2.drop which.length with
        | q2 :: ')' :: rem =>
          if q2 = '"' || q2 = '\'' then some rem else none
        | _ => none
      else none
    | [] => none
  else none

/-- `re.sub` for one byte-order pattern. -/
def subByteOrder (which repl : Str) : Nat → Str → Str
  | 0, s => s
  | _ + 1, [] => []
  | fuel + 1, c :: rest =>
    match matchByteOrderAt which (c :: rest) with
    | some rem => repl ++ subByteOrder which repl fuel rem
    | none => c :: subByteOrder which repl fuel rest

/-- One position of `autosarfactory\.save\([^)]+\)`, returning the
remainder after the match. -/
def matchSaveArgsRemAt (s : Str) : Option Str :=
  if startswith s (pyS "autosarfactory.save(") then
    let body := (s.drop 20).takeWhile (· ≠ ')')
    if body ≠ [] && startswith ((s.drop 20).drop body.length) (pyS ")") then
      some (((s.drop 20).drop body.length).drop 1)
    else none
  else none

/-- `re.sub` of the save pattern with `autosarfactory.save()`. -/
def subSaveArgs : Nat → Str → Str
  | 0, s => s
  | _ + 1, [] => []
  | fuel + 1, c :: rest =>
    match matchSaveArgsRemAt (c :: rest) with
    | some rem => pyS "autosarfactory.save()" ++ subSaveArgs fuel rem
    | none => c :: subSaveArgs fuel rest

def byteOrderLastRepl : Str :=
  pyS "set_packingByteOrder(autosarfactory.ByteOrderEnum.VALUE_MOST_SIGNIFICANT_BYTE_LAST)"

def byteOrderFirstRepl : Str :=
  pyS "set_packingByteOrder(autosarfactory.ByteOrderEnum.VALUE_MOST_SIGNIFICANT_BYTE_FIRST)"

/-- `Fixer._apply_pattern_fixes` (`src/fixer.py:274-315`): the reference
rewrite, then the two byte-order rewrites, then the save-signature
rewrite, each returned as soon as it changes the code.  (`error_message`
is accepted but never read by the source body.) -/
def applyPatternFixes (code errorMessage : Str) : Str :=
  let _ := errorMessage
  let fixedRef := subRefSetValue code.length code
  if fixedRef ≠ code then fixedRef
  else
    let fixedBoL := subByteOrder (pyS "MOST-SIGNIFICANT-BYTE-LAST")
      byteOrderLastRepl code.length code
    if fixedBoL ≠ code then fixedBoL
    else
      let fixedBoF := subByteOrder (pyS "MOST-SIGNIFICANT-BYTE-FIRST")
        byteOrderFirstRepl code.length code
      if fixedBoF ≠ code then fixedBoF
      else
        if APIValidator.searchSaveArgs code then
          let fixedSave := subSaveArgs code.length code
          if fixedSave ≠ code then fixedSave else code
        else code

/-- The mutable per-session state a `Fixer` instance owns
(`src/fixer.py:8-13`): the attempt counter, the configured ceiling, and
the rolling list of seen error signatures.  (`enable_deep_analysis`
gates `_deep_analyze_error`, which only contributes text to the Tier-3
prompt; the prompt is abstracted by the LLM oracle below.) -/
structure FixerState where
  fixAttempts : Nat := 0
  maxAttempts : Nat := 5
  previousErrors : List Str := []
  enableDeepAnalysis : Bool := true
deriving DecidableEq, Repr

/-- The `error_log` argument of `fix_code`: a structured dict from the
executor, or a plain string (the verification-failure path). -/
inductive ErrLog where
  | dict (type_ message : Str) (line : Option Nat) (traceback : Str)
  | str (s : Str)
deriving DecidableEq, Repr

/-- Which repair tier produced the returned code (`none` when the
max-attempts ceiling made `fix_code` return without entering any
tier). -/
inductive Tier where
  | tier1
  | tier2
  | tier3
deriving DecidableEq, Repr

/-- The markdown-fence stripping of Tier 3 (`src/fixer.py:213-218`). -/
def stripMarkdown (resp : Str) : Str :=
  let r :=
    if contains resp (pyS "```python") then
      ((split ((split resp (pyS "```python")).getD 1 []) (pyS "```")).getD 0 [])
    else if contains resp (pyS "```") then
      ((split ((split resp (pyS "```")).getD 1 []) (pyS "```")).getD 0 [])
    else resp
  strip r

/-- `Fixer.fix_code` (`src/fixer.py:103-230`).  The LLM is an oracle
mapping the internal retry attempt index (0, then 1 after the escalated
prompt) to either a response text or a raised exception; the prompt
text — plan checklist, API hints, deep-analysis summary, repeated-error
escalation — influences only the oracle's input and is abstracted away.
Returns the new code, the updated fixer state, and which tier (if any)
was invoked. -/
def fixCode (llm : Nat → Except Executor.PyExn Str) (s0 : FixerState)
    (code : Str) (errorLog : ErrLog) : Str × FixerState × Option Tier :=
  let s := { s0 with fixAttempts := s0.fixAttempts + 1 }
  if s.maxAttempts < s.fixAttempts then (code, s, none)
  else
    let errorText :=
      match errorLog with
      | .dict _ m _ tb => tb ++ pyS " " ++ m
      | .str e => e
    let errorType :=
      match errorLog with
      | .dict t _ _ _ => t
      | .str _ => []
    let errorMessage :=
      match errorLog with
      | .dict _ m _ _ => m
      | .str e => e
    let fixed1 := applyDeterministicFixes code errorMessage errorType
    if fixed1 ≠ code then (fixed1, s, some .tier1)
    else
      let fixed2 := applyPatternFixes code errorMessage
      if fixed2 ≠ code then (fixed2, s, some .tier2)
      else
        let errorKey := errorText.take 200
        let s :=
          if errorKey ∈ s.previousErrors then s
          else { s with previousErrors := s.previousErrors ++ [errorKey] }
        match llm 0 with
        | .error _ => (code, s, some .tier3)
        | .ok r0 =>
          let f0 := stripMarkdown r0
          if f0 ≠ code then (f0, s, some .tier3)
          else
            match llm 1 with
            | .error _ => (code, s, some .tier3)
            | .ok r1 => (stripMarkdown r1, s, some .tier3)

/-- A session's sequence of `fix_code` calls against one `Fixer`
instance, threading its state. -/
def runCalls (llm : Nat → Except Executor.PyExn Str) :
    FixerState → List (Str × ErrLog) → FixerState
  | s, [] => s
  | s, (c, e) :: rest => runCalls llm (fixCode llm s c e).2.1 rest

end Fixer


/-!
## `app.py` and `src/main.py` — the session-driving repair loops
-/

namespace RepairLoops

/-- Outcome of a repair loop: whether the session succeeded, whether it
stopped with the 5-consecutive-unchanged stall report, how many times
`fix_code` was invoked, and the final candidate code. -/
structure LoopResult where
  success : Bool
  stalled : Bool
  fixCalls : Nat
  finalCode : Str
deriving DecidableEq, Repr

/-- The repair loop of `app.py` (`app.py:768-843`), one iteration per
`attempt in range(max_retries + 1)`:
run the script (`run : attempt, code ↦ (success, run_msg)`), on run
success verify the ARXML (`verify : attempt ↦ (ok, msg)`, a
verification failure re-entering the failure path with the message
string as the error), on success `break`; then, while
`attempt < max_retries`, call the fixer (threading its state `σ`), count
`consecutive_unchanged`, stop with the stall report once it reaches 5,
and otherwise re-validate changed code
(`validax : code ↦ (validated, had_errors)`, the
`validate_before_execution` step, applied only when it both found errors
and changed the code) before looping.  The error-feedback-store writes
and UI logging of the source do not influence the control flow and are
not modelled.  `remaining` is the number of loop iterations left
(`max_retries + 1 - attempt`), making the recursion structural. -/
def appLoopAux {σ : Type} (run : Nat → Str → Bool × Fixer.ErrLog)
    (verify : Nat → Bool × Str) (fx : σ → Str → Fixer.ErrLog → Str × σ)
    (validax : Str → Str × Bool) (maxRetries : Nat) :
    Nat → Nat → Str → σ → Nat → Nat → LoopResult
  | 0, _, code, _, _, fc => ⟨false, false, fc, code⟩
  | remaining + 1, attempt, code, fs, consec, fc =>
    let r := run attempt code
    let step :=
      if r.1 then
        let v := verify attempt
        if v.1 then (true, Fixer.ErrLog.str [])
        else (false, Fixer.ErrLog.str v.2)
      else (false, r.2)
    if step.1 then ⟨true, false, fc, code⟩
    else
      if attempt < maxRetries then
        let fxr := fx fs code step.2
        if fxr.1 == code then
          if 5 ≤ consec + 1 then ⟨false, true, fc + 1, code⟩
          else
            appLoopAux run verify fx validax maxRetries remaining
              (attempt + 1) fxr.1 fxr.2 (consec + 1) (fc + 1)
        else
          let v := validax fxr.1
          let fixed2 := if v.2 && v.1 ≠ fxr.1 then v.1 else fxr.1
          appLoopAux run verify fx validax maxRetries remaining
            (attempt + 1) fixed2 fxr.2 0 (fc + 1)
      else
        appLoopAux run verify fx validax maxRetries remaining
          (attempt + 1) code fs consec fc

/-- The `app.py` repair loop from its initial state
(`consecutive_unchanged = 0`). -/
def appLoop {σ : Type} (run : Nat → Str → Bool × Fixer.ErrLog)
    (verify : Nat → Bool × Str) (fx : σ → Str → Fixer.ErrLog → Str × σ)
    (validax : Str → Str × Bool) (maxRetries : Nat) (code : Str)
    (fs : σ) : LoopResult :=
  appLoopAux run verify fx validax maxRetries (maxRetries + 1) 0 code fs 0 0

/-- The CLI repair loop of `src/main.py` (`src/main.py:236-263`): the
same run/verify/fix cycle, but with **no** `consecutive_unchanged`
tracking and no stall report — after a failure it simply calls the fixer
(while `attempt < max_retries`) and loops until the retry budget is
exhausted. -/
def mainLoopAux {σ : Type} (run : Nat → Str → Bool × Fixer.ErrLog)
    (verify : Nat → Bool × Str) (fx : σ → Str → Fixer.ErrLog → Str × σ)
    (maxRetries : Nat) : Nat → Nat → Str → σ → Nat → LoopResult
  | 0, _, code, _, fc => ⟨false, false, fc, code⟩
  | remaining + 1, attempt, code, fs, fc =>
    let r := run attempt code
    let step :=
      if r.1 then
        let v := verify attempt
        if v.1 then (true, Fixer.ErrLog.str [])
        else (false, Fixer.ErrLog.str v.2)
      else (false, r.2)
    if step.1 then ⟨true, false, fc, code⟩
    else
      if attempt < maxRetries then
        let fxr := fx fs code step.2
        mainLoopAux run verify fx maxRetries remaining (attempt + 1)
          fxr.1 fxr.2 (fc + 1)
      else
        mainLoopAux run verify fx maxRetries remaining (attempt + 1)
          code fs fc

/-- The CLI repair loop (`--max-retries` defaults to 10,
`src/main.py:81-86`). -/
def mainLoop {σ : Type} (run : Nat → Str → Bool × Fixer.ErrLog)
    (verify : Nat → Bool × Str) (fx : σ → Str → Fixer.ErrLog → Str × σ)
    (maxRetries : Nat) (code : Str) (fs : σ) : LoopResult :=
  mainLoopAux run verify fx maxRetries (maxRetries + 1) 0 code fs 0

end RepairLoops


/-!
## `src/validation_engine.py` — `PreGenerationValidator.validate`

The validator parses the candidate code with CPython's `ast` module and
walks the tree; the parser is external to the repository and is modelled
as an oracle `parse : Str → Except SynErr (List ACall)` returning either
the syntax error or the attribute-method calls (`node.func.attr`,
`node.lineno`) that `ast.walk` yields.  The knowledge base behind
`kb.method_exists` / `kb.find_similar_method` is the introspected symbol
table of the target library (`autosarfactory/autosarfactory.py`, absent
from the source tree) as loaded from its JSON cache; it is modelled as
data (`UKB`).
-/

namespace ValidationEngine

open PyStr

inductive ValidationSeverity where
  | ERROR
  | WARNING
  | INFO
deriving DecidableEq, Repr

inductive ValidationCategory where
  | SYNTAX
  | SYMBOL
  | TYPE_
  | REFERENCE
  | SEMANTIC
  | HALLUCINATION
  | BEST_PRACTICE
deriving DecidableEq, Repr

/-- `ValidationIssue` (`src/validation_engine.py:53-72`); the `auto_fix`
field holds the closure the source builds (it is never invoked:
`_apply_auto_fixes` re-derives every rewrite). -/
structure ValidationIssue where
  category : ValidationCategory
  severity : ValidationSeverity
  message : Str
  line_number : Option Nat := none
  column : Option Nat := none
  code_snippet : Option Str := none
  suggestion : Option Str := none
  auto_fix : Option (Str → Str) := none

/-- A `SyntaxError` from `ast.parse`. -/
structure SynErr where
  msg : Str
  lineno : Option Nat := none
  offset : Option Nat := none
  text : Option Str := none

/-- An `ast.Call` node whose `func` is an `ast.Attribute`, as
`_check_hallucinations` / `_check_method_calls` consume it. -/
structure ACall where
  attr : Str
  lineno : Option Nat := none

/-- The parse oracle: `ast.parse` plus the `ast.walk` extraction of
attribute calls. -/
abbrev ParseOracle := Str → Except SynErr (List ACall)

/-- The slice of `UnifiedKnowledgeBase` that `validate` consults:
`method_exists(name)` is `SymbolTable.has_method(name)` =
`name in _method_index or name in module_functions`
(`src/ast_indexer.py:153-159`), and `find_similar_method(name)` runs
`difflib.get_close_matches` over the `_method_index` keys
(`src/knowledge_base.py:314-323`). -/
structure UKB where
  methodIndexKeys : List Str := []
  moduleFunctionKeys : List Str := []
deriving DecidableEq, Repr

def UKB.methodExists (kb : UKB) (name : Str) : Bool :=
  kb.methodIndexKeys.contains name || kb.moduleFunctionKeys.contains name

def UKB.findSimilarMethod (kb : UKB) (name : Str) : List Str :=
  Difflib.getCloseMatches name kb.methodIndexKeys 3 (3, 5)

/-- Lookup in `HALLUCINATION_FIXES`. -/
def hallucinationLookup (name : Str) : Option Str :=
  match HallucinationTable.HALLUCINATION_FIXES.find? (fun p => p.1 == name) with
  | some p => some p.2
  | none => none

/-- `PreGenerationValidator._check_syntax` via the oracle
(`src/validation_engine.py:190-204`). -/
def checkSyntax (parse : ParseOracle) (code : Str) : List ValidationIssue :=
  match parse code with
  | .error e =>
    [{ category := .SYNTAX, severity := .ERROR, message := e.msg,
       line_number := e.lineno, column := e.offset,
       code_snippet := e.text }]
  | .ok _ => []

/-- `PreGenerationValidator._check_hallucinations`
(`src/validation_engine.py:206-225`). -/
def checkHallucinations (calls : List ACall) : List ValidationIssue :=
  calls.foldl
    (fun issues node =>
      match hallucinationLookup node.attr with
      | some correct =>
        issues ++
          [{ category := .HALLUCINATION, severity := .ERROR,
             message := pyS "'" ++ node.attr ++
               pyS "' is a hallucinated method name",
             line_number := node.lineno,
             suggestion := some (pyS "Use '" ++ correct ++ pyS "' instead"),
             auto_fix := some (fun c => replace c node.attr correct) }]
      | none => issues)
    []

/-- One position of the *open* reference pattern
`\.new_(\w+)Ref\(\)\.set_value\(` with its captured group and the
remainder after the match (used by `_check_reference_patterns`). -/
def matchRefOpenGroupAt : Str → Option (Str × Str)
  | '.' :: s1 =>
    if startswith s1 (pyS "new_") then
      let w := (s1.drop 4).takeWhile (isWordChar ·)
      if 4 ≤ w.length && endswith w (pyS "Ref") then
        let s2 := (s1.drop 4).drop w.length
        if startswith s2 (pyS "().set_value(") then
          some (w.take (w.length - 3), s2.drop 13)
        else none
      else none
    else none
  | _ => none

/-- `re.finditer` of the open reference pattern, tracking
`code[:match.start()].count('\n') + 1` as the line number
(the matched text itself contains no newline). -/
def scanRefIssues : Nat → Nat → Str → List (Str × Nat)
  | 0, _, _ => []
  | _ + 1, _, [] => []
  | fuel + 1, line, c :: rest =>
    match matchRefOpenGroupAt (c :: rest) with
    | some (g, rem) => (g, line) :: scanRefIssues fuel line rem
    | none =>
      scanRefIssues fuel (if c = '\n' then line + 1 else line) rest

/-- `PreGenerationValidator._check_reference_patterns`
(`src/validation_engine.py:227-245`). -/
def checkReferencePatterns (code : Str) : List ValidationIssue :=
  (scanRefIssues code.length 1 code).map fun (refType, line) =>
    { category := .REFERENCE, severity := .ERROR,
      message := pyS "Invalid reference pattern: new_" ++ refType ++
        pyS "Ref().set_value()",
      line_number := some line,
      suggestion := some (pyS "Use direct setter: set_" ++
        (match refType with
         | [] => []
         | g0 :: grest => lower [g0] ++ grest) ++ pyS "(value)") }

/-- `PreGenerationValidator._check_method_calls`
(`src/validation_engine.py:247-275`). -/
def checkMethodCalls (kb : UKB) (calls : List ACall) :
    List ValidationIssue :=
  calls.foldl
    (fun issues node =>
      if !(startswith node.attr (pyS "new_") ||
           startswith node.attr (pyS "set_") ||
           startswith node.attr (pyS "get_")) then issues
      else if (hallucinationLookup node.attr).isSome then issues
      else if kb.methodExists node.attr then issues
      else
        let similar := kb.findSimilarMethod node.attr
        let suggestion :=
          if similar ≠ [] then
            some (pyS "Did you mean: " ++
              List.intercalate (pyS ", ") similar ++ pyS "?")
          else none
        issues ++
          [{ category := .SYMBOL, severity := .ERROR,
             message := pyS "Method '" ++ node.attr ++
               pyS "' not found in API",
             line_number := node.lineno, suggestion := suggestion }])
    []

/-- First regex of the `read()` check:
`autosarfactory\.read\([^[\]]+\)` — with backtracking this matches at
a position iff some `)` occurs at index ≥ 1 of the bracket-free run
after `read(`. -/
def matchReadNoBracketAt (s : Str) : Bool :=
  if startswith s (pyS "autosarfactory.read(") then
    let run := (s.drop 20).takeWhile (fun c => c ≠ '[' && c ≠ ']')
    (run.drop 1).contains ')'
  else false

def searchReadNoBracket : Str → Bool
  | [] => false
  | c :: rest => matchReadNoBracketAt (c :: rest) || searchReadNoBracket rest

/-- Second regex of the `read()` check:
`autosarfactory\.read\(([^)]+)\)` — the leftmost occurrence's group. -/
def matchReadGroupAt (s : Str) : Option Str :=
  if startswith s (pyS "autosarfactory.read(") then
    let run := (s.drop 20).takeWhile (· ≠ ')')
    if run ≠ [] && startswith ((s.drop 20).drop run.length) (pyS ")") then
      some run
    else none
  else none

def searchReadGroup : Str → Option Str
  | [] => none
  | c :: rest =>
    match matchReadGroupAt (c :: rest) with
    | some g => some g
    | none => searchReadGroup rest

/-- `PreGenerationValidator._check_common_mistakes`
(`src/validation_engine.py:277-315`). -/
def checkCommonMistakes (code : Str) : List ValidationIssue :=
  (if APIValidator.searchSaveArgs code then
    [{ category := .SEMANTIC, severity := .ERROR,
       message := pyS "save() should not have arguments",
       suggestion := some (pyS "Use autosarfactory.save() without arguments") }]
   else []) ++
  (if APIValidator.searchByteOrderStr code then
    [{ category := .TYPE_, severity := .ERROR,
       message := pyS "ByteOrder should use enum, not string",
       suggestion := some
         (pyS "Use autosarfactory.ByteOrderEnum.VALUE_MOST_SIGNIFICANT_BYTE_LAST") }]
   else []) ++
  (if searchReadNoBracket code then
    match searchReadGroup code with
    | some g =>
      if startswith (strip g) (pyS "[") then []
      else
        [{ category := .SEMANTIC, severity := .ERROR,
           message := pyS "read() requires a list argument",
           suggestion := some (pyS "Use autosarfactory.read([\"file.arxml\"])") }]
    | none => []
   else [])

/-- One position of the *full* reference pattern
`\.new_(\w+)Ref\(\)\.set_value\(([^)]+)\)` used by the auto-fix
(`_apply_auto_fixes` / `quick_fix`): the second group is `[^)]+`. -/
def matchRefFullAt : Str → Option (Str × Str × Str)
  | '.' :: s1 =>
    if startswith s1 (pyS "new_") then
      let w := (s1.drop 4).takeWhile (isWordChar ·)
      if 4 ≤ w.length && endswith w (pyS "Ref") then
        let s2 := (s1.drop 4).drop w.length
        if startswith s2 (pyS "().set_value(") then
          let s3 := s2.drop 13
          let v := s3.takeWhile (· ≠ ')')
          if v ≠ [] && startswith (s3.drop v.length) (pyS ")") then
            some (w.take (w.length - 3), v, (s3.drop v.length).drop 1)
          else none
        else none
      else none
    else none
  | _ => none

def searchRefFull : Str → Bool
  | [] => false
  | c :: rest => (matchRefFullAt (c :: rest)).isSome || searchRefFull rest

/-- `re.sub` of the full reference pattern with `ref_fix`
(`src/validation_engine.py:530-538`, same replacement as the fixer's). -/
def subRefFull : Nat → Str → Str
  | 0, s => s
  | _ + 1, [] => []
  | fuel + 1, c :: rest =>
    match matchRefFullAt (c :: rest) with
    | some (g, v, rem) => Fixer.refReplacement g v ++ subRefFull fuel rem
    | none => c :: subRefFull fuel rest

/-- `PreGenerationValidator._apply_auto_fixes`
(`src/validation_engine.py:517-560`): the hallucination replacement
pass, then the reference rewrite, then the save-signature rewrite, then
the byte-order rewrites, each appending its fix description.  The
`issues` parameter of the source is never read (the rewrites are
re-derived from the text), so the model takes only the code. -/
def applyAutoFixes (code : Str) : Str × List Str :=
  let hall := HallucinationTable.applyFixPass code
  let afterRef :=
    if searchRefFull hall.1 then
      (subRefFull hall.1.length hall.1,
        hall.2 ++ [pyS "Fixed reference patterns"])
    else hall
  let afterSave :=
    if APIValidator.searchSaveArgs afterRef.1 then
      (Fixer.subSaveArgs afterRef.1.length afterRef.1,
        afterRef.2 ++ [pyS "Fixed save() signature"])
    else afterRef
  if contains afterSave.1 (pyS "set_packingByteOrder(\"") ||
      contains afterSave.1 (pyS "set_packingByteOrder('") then
    (Fixer.subByteOrder (pyS "MOST-SIGNIFICANT-BYTE-FIRST")
        Fixer.byteOrderFirstRepl
        (Fixer.subByteOrder (pyS "MOST-SIGNIFICANT-BYTE-LAST")
          Fixer.byteOrderLastRepl afterSave.1.length afterSave.1).length
        (Fixer.subByteOrder (pyS "MOST-SIGNIFICANT-BYTE-LAST")
          Fixer.byteOrderLastRepl afterSave.1.length afterSave.1),
      afterSave.2 ++ [pyS "Fixed ByteOrder enum"])
  else afterSave

/-- The non-syntax issue list of a parsed program (steps 3-6 of
`validate`). -/
def issuesFor (kb : UKB) (code : Str) (calls : List ACall) :
    List ValidationIssue :=
  checkHallucinations calls ++ checkReferencePatterns code ++
    checkMethodCalls kb calls ++ checkCommonMistakes code

/-- `ValidationResult` (`src/validation_engine.py:75-81`). -/
structure ValidationResult where
  is_valid : Bool
  issues : List ValidationIssue
  fixed_code : Option Str := none
  fixes_applied : List Str := []

/-- `validate(code, auto_fix=False)`'s issue list: the syntax
short-circuit, else the four checks. -/
def validateNoFixIssues (parse : ParseOracle) (kb : UKB) (code : Str) :
    List ValidationIssue :=
  match parse code with
  | .error e =>
    [{ category := .SYNTAX, severity := .ERROR, message := e.msg,
       line_number := e.lineno, column := e.offset, code_snippet := e.text }]
  | .ok calls => issuesFor kb code calls

/-- `PreGenerationValidator.validate` with `auto_fix=True`
(`src/validation_engine.py:123-188`): syntax errors short-circuit;
otherwise the four checks run, the auto-fixes are applied, and when any
fix was applied the rewritten text is **re-validated** (without
auto-fix) and those issues are the ones reported; `fixed_code` is
reported iff some fix was applied. -/
def validate (parse : ParseOracle) (kb : UKB) (code : Str) :
    ValidationResult :=
  match parse code with
  | .error e =>
    { is_valid := false,
      issues := [{ category := .SYNTAX, severity := .ERROR,
                   message := e.msg, line_number := e.lineno,
                   column := e.offset, code_snippet := e.text }] }
  | .ok calls =>
    let issues := issuesFor kb code calls
    let af := applyAutoFixes code
    let remaining :=
      if af.2 ≠ [] then validateNoFixIssues parse kb af.1 else issues
    { is_valid := remaining.all fun i => decide (i.severity ≠ .ERROR),
      issues := remaining,
      fixed_code := if af.2 ≠ [] then some af.1 else none,
      fixes_applied := af.2 }

/-- `ValidationResult.error_count` (`src/validation_engine.py:83-85`). -/
def errorCount (issues : List ValidationIssue) : Nat :=
  (issues.filter fun i => decide (i.severity = .ERROR)).length

/-!
### Concrete scenario for the auto-fix error-count comparison

`new_RunnableEntity` is a `HALLUCINATION_FIXES` key and
`_apply_auto_fixes` replaces it as a raw substring wherever it occurs.
On `obj.new_RunnableEntityEntityGroup(v)` the replacement *merges* into
`obj.new_RunnableEntityGroup(v)`, which still contains the key; a
knowledge base whose symbol table happens to contain
`new_RunnableEntityGroup` (the table is introspected from the target
library — whose implementation module is not part of this source tree —
or loaded from its on-disk JSON cache, so its contents are data) then
accepts the once-fixed code, while fixing it again corrupts the call to
the nonexistent `new_RunnableGroup`. -/

def exC : Str := pyS "obj.new_RunnableEntityEntityGroup(v)"

def exC1 : Str := pyS "obj.new_RunnableEntityGroup(v)"

def exC2 : Str := pyS "obj.new_RunnableGroup(v)"

/-- The parse oracle for the three snippets above: each is a single
expression statement calling one attribute method (what `ast.parse` +
`ast.walk` yield on them). -/
def exParse : ParseOracle := fun s =>
  if s = exC then .ok [⟨pyS "new_RunnableEntityEntityGroup", some 1⟩]
  else if s = exC1 then .ok [⟨pyS "new_RunnableEntityGroup", some 1⟩]
  else if s = exC2 then .ok [⟨pyS "new_RunnableGroup", some 1⟩]
  else .ok []

/-- A symbol table carrying `new_RunnableEntityGroup` (and not the
corrupted `new_RunnableGroup`). -/
def exUKB : UKB := ⟨[pyS "new_RunnableEntityGroup"], []⟩

/-- A fixed-point scenario for the amended statement:
`obj.new_ServiceEvent(v)` is rewritten once to `obj.new_Event(v)`, on
which no further auto-fix applies. -/
def wC : Str := pyS "obj.new_ServiceEvent(v)"

def wC1 : Str := pyS "obj.new_Event(v)"

def wParse : ParseOracle := fun s =>
  if s = wC then .ok [⟨pyS "new_ServiceEvent", some 1⟩]
  else if s = wC1 then .ok [⟨pyS "new_Event", some 1⟩]
  else .ok []

def wUKB : UKB := ⟨[pyS "new_Event"], []⟩

end ValidationEngine

/-!
====================================================================
## Theorems
====================================================================
-/

namespace PyStr

theorem contains_iff_infix (h n : Str) : contains h n = true ↔ n <:+: h := by
  induction h with
  | nil =>
    simp [contains, List.isPrefixOf_iff_prefix, List.prefix_nil, List.infix_nil]
  | cons c rest ih =>
    simp only [contains, Bool.or_eq_true, List.isPrefixOf_iff_prefix, ih,
      List.infix_cons_iff]

end PyStr

namespace ASTIndexer

/-- ASCII lowercasing never produces an uppercase letter, in particular
never `'E'`. -/
theorem lowerChar_ne_E (c : Char) :
    (if 'A' ≤ c && c ≤ 'Z' then Char.ofNat (c.toNat + 32) else c) ≠ 'E' := by
  by_cases hb : ('A' ≤ c && c ≤ 'Z') = true
  · rw [if_pos hb]
    have h65 : 65 ≤ c.toNat := (Bool.and_eq_true ..|>.mp hb).1 |> of_decide_eq_true
    have h90 : c.toNat ≤ 90 := (Bool.and_eq_true ..|>.mp hb).2 |> of_decide_eq_true
    intro he
    have hv : (c.toNat + 32).isValidChar := by left; omega
    have key : (Char.ofNat (c.toNat + 32)).toNat = c.toNat + 32 := by
      unfold Char.ofNat
      rw [dif_pos hv]
      rfl
    have h2' := congrArg Char.toNat he
    rw [key] at h2'
    have h69 : ('E' : Char).toNat = 69 := rfl
    omega
  · rw [if_neg hb]
    intro he
    subst he
    exact hb (by decide)

/-- `name.lower()` can never contain the exclusion entry `'Element'`:
its first character `'E'` is uppercase, and `lower` output has no
uppercase ASCII letters. -/
theorem lower_no_Element (name : Str) :
    PyStr.contains (PyStr.lower name) (pyS "Element") = false := by
  by_contra h
  rw [Bool.not_eq_false, PyStr.contains_iff_infix] at h
  have hE : 'E' ∈ PyStr.lower name := h.subset (by decide)
  rw [PyStr.lower, List.mem_map] at hE
  obtain ⟨c, _, hfc⟩ := hE
  exact lowerChar_ne_E c hfc

end ASTIndexer

/-- C9: the symbol-table exclusion predicate excludes a name iff it
starts with `'_'` or its lowercased form contains one of `'autosar'`,
`'parent'`, `'tag'`, `'text'`, `'tail'` as a substring; the entry
`'Element'` can never match a lowercased name, so it contributes nothing;
consequently a symbol such as `set_voltage` (whose name contains `'tag'`)
is excluded, while a name containing `'element'` only in lowercase form,
such as `set_dataElement`, is kept. -/
theorem c9_should_exclude_characterization :
    (∀ name : Str,
      ASTIndexer.shouldExclude name =
        (PyStr.startswith name (pyS "_") ||
          [pyS "autosar", pyS "parent", pyS "tag", pyS "text", pyS "tail"].any
            (fun exc => PyStr.contains (PyStr.lower name) exc)))
    ∧ (∀ name : Str,
        PyStr.contains (PyStr.lower name) (pyS "Element") = false)
    ∧ ASTIndexer.shouldExclude (pyS "set_voltage") = true
    ∧ ASTIndexer.shouldExclude (pyS "set_dataElement") = false := by
  refine ⟨fun name => ?_, ASTIndexer.lower_no_Element, by decide, by decide⟩
  simp only [ASTIndexer.shouldExclude, ASTIndexer.EXCLUSIONS, List.any_cons,
    List.any_nil, ASTIndexer.lower_no_Element, Bool.or_false]
  split_ifs with h1 h2 <;> simp_all

/-- C8 counterexample: for a class `CanCluster` with inheritance chain
`CanCluster <: Cluster <: ARObject` (all library-internal), the
extraction loop of `_extract_class_info` iterates over `cls.__mro__` and
records **every** library-internal ancestor — here `["Cluster",
"ARObject"]` — whereas the direct bases are just `["Cluster"]`.  The
grandparent `ARObject` witnesses the difference. -/
theorem c8_bases_counterexample :
    ASTIndexer.extractBases (pyS "CanCluster") ASTIndexer.exCanCluster ≠
      ASTIndexer.claimDirectBases ASTIndexer.exCanCluster ∧
    pyS "ARObject" ∈
      ASTIndexer.extractBases (pyS "CanCluster") ASTIndexer.exCanCluster ∧
    pyS "ARObject" ∉ ASTIndexer.claimDirectBases ASTIndexer.exCanCluster := by
  refine ⟨?_, ?_, ?_⟩ <;> decide

/-- C8 amended: `ClassInfo.bases` contains exactly the names of the
library-internal **ancestors** of the class taken from its MRO — the full
inheritance chain excluding the class itself and `object` — not only the
direct bases: a name `b` is recorded iff some MRO entry carries it, it
differs from the class's own name and from `"object"`, and its module is
non-empty and mentions `autosarfactory`. -/
theorem c8_bases_are_mro_ancestors (name : Str) (cls : ASTIndexer.PyClass)
    (b : Str) :
    b ∈ ASTIndexer.extractBases name cls ↔
      ∃ e ∈ cls.mro, e.name = b ∧ b ≠ name ∧ b ≠ pyS "object" ∧
        e.module ≠ [] ∧
        PyStr.contains e.module (pyS "autosarfactory") = true := by
  simp only [ASTIndexer.extractBases, List.mem_map, List.mem_filter,
    Bool.and_eq_true, decide_eq_true_eq, ne_eq]
  constructor
  · rintro ⟨e, ⟨he, ⟨⟨hn, ho⟩, hm⟩, hc⟩, rfl⟩
    exact ⟨e, he, rfl, hn, ho, hm, hc⟩
  · rintro ⟨e, he, rfl, hn, ho, hm, hc⟩
    exact ⟨e, ⟨he, ⟨⟨hn, ho⟩, hm⟩, hc⟩, rfl⟩

set_option maxRecDepth 4000 in
/-- C7 counterexample: `_save_cache` stamps
`metadata["generated_at"] = datetime.now().isoformat()` into the
serialized output, so two runs of the builder over the *same* (here:
empty) symbol table that save at different wall-clock times write
different bytes. -/
theorem c7_cache_not_byte_identical :
    ASTIndexer.saveCacheBytes {} (pyS "2024-01-01T00:00:00") ≠
      ASTIndexer.saveCacheBytes {} (pyS "2024-01-01T00:00:01") := by
  decide

/-- C7 amended: the serialized cache of two builder runs over the same
symbol table is identical *except for* the `generated_at` timestamp in
`metadata`: after scrubbing that one field the cache JSON no longer
depends on the save time at all. -/
theorem c7_cache_deterministic_modulo_timestamp
    (st : ASTIndexer.SymbolTableL) (t1 t2 : Str) :
    ASTIndexer.scrubGeneratedAt (ASTIndexer.saveCacheData st t1) =
      ASTIndexer.scrubGeneratedAt (ASTIndexer.saveCacheData st t2) := rfl

set_option maxRecDepth 4000 in
/-- C3 counterexample: the replacement pass of the Hallucination Fix
Table is *not* idempotent.  On `obj.set_variableDataPrototype(v)` one
pass produces `obj.set_targetDataPrototype(v)` (the entry
`set_targetDataPrototype -> set_targetDataElement` is iterated *before*
`set_variableDataPrototype -> set_targetDataPrototype`, so the freshly
introduced name is not rewritten), and a second pass then produces
`obj.set_targetDataElement(v)` — applying the pass twice differs from
applying it once. -/
theorem c3_fix_pass_not_idempotent :
    HallucinationTable.fixPassCode
        (pyS "obj.set_variableDataPrototype(v)") =
      pyS "obj.set_targetDataPrototype(v)" ∧
    HallucinationTable.fixPassCode
        (HallucinationTable.fixPassCode
          (pyS "obj.set_variableDataPrototype(v)")) =
      pyS "obj.set_targetDataElement(v)" ∧
    HallucinationTable.fixPassCode
        (HallucinationTable.fixPassCode
          (pyS "obj.set_variableDataPrototype(v)")) ≠
      HallucinationTable.fixPassCode
        (pyS "obj.set_variableDataPrototype(v)") := by
  refine ⟨?_, ?_, ?_⟩ <;> decide

/-- C3 amended: applying the Hallucination Fix Table's replacement pass
to code that contains none of the table's wrong identifiers — in
particular, already-correct code — leaves the code unchanged and records
no fixes.  (The original claim's second half, idempotence on arbitrary
code, fails: see the counterexample.  It fails only on code containing
the chained entry `set_variableDataPrototype`, whose replacement
`set_targetDataPrototype` is itself a key of the table.) -/
theorem c3_fix_pass_noop_on_clean_code (code : Str)
    (h : ∀ p ∈ HallucinationTable.HALLUCINATION_FIXES,
      PyStr.contains code p.1 = false) :
    HallucinationTable.applyFixPass code = (code, []) := by
  have general :
      ∀ (table : List (Str × Str)) (c : Str) (fs : List Str),
        (∀ p ∈ table, PyStr.contains c p.1 = false) →
        table.foldl
          (fun (acc : Str × List Str) p =>
            if PyStr.contains acc.1 p.1 then
              (PyStr.replace acc.1 p.1 p.2,
                acc.2 ++ [p.1 ++ pyS " -> " ++ p.2])
            else acc)
          (c, fs) = (c, fs) := by
    intro table
    induction table with
    | nil => intro c fs _; rfl
    | cons p rest ih =>
      intro c fs hall
      have hp : PyStr.contains c p.1 = false := hall p (List.mem_cons_self ..)
      simp only [List.foldl_cons, hp, Bool.false_eq_true, if_false]
      exact ih c fs fun q hq => hall q (List.mem_cons_of_mem _ hq)
  exact general _ code [] h

/-- Witness for `c3_fix_pass_noop_on_clean_code`: a correct
`autosarfactory` snippet containing no wrong identifier is untouched by
the pass. -/
theorem c3_fix_pass_noop_witness :
    HallucinationTable.applyFixPass (pyS "pkg.new_ARPackage(name)") =
      (pyS "pkg.new_ARPackage(name)", []) :=
  c3_fix_pass_noop_on_clean_code (pyS "pkg.new_ARPackage(name)")
    (by decide)

/-- C5 counterexample: `run_script` writes the script file *before*
entering its `try` block (`src/executor.py:59-60`), so a file-I/O
exception raised there — e.g. an `OSError` from `open(filename, "w")` —
propagates to the caller instead of being returned as a `(bool, result)`
pair. -/
theorem c5_run_script_counterexample :
    Executor.runScript 30
        (Except.error ⟨pyS "OSError", pyS "No space left on device"⟩)
        (Executor.RunOutcome.completed 0 [] []) (Except.ok ()) =
      Except.error ⟨pyS "OSError", pyS "No space left on device"⟩ ∧
    (Executor.runScript 30
        (Except.error ⟨pyS "OSError", pyS "No space left on device"⟩)
        (Executor.RunOutcome.completed 0 [] []) (Except.ok ())).isOk =
      false := by
  exact ⟨rfl, rfl⟩

/-- C5 amended: once the script file has been written successfully,
`run_script` never propagates an exception: every outcome of the
subprocess phase — normal completion, `subprocess.TimeoutExpired`, any
other harness exception, and any exception while writing
`error_log.txt` — is caught and returned as a `(bool, result)` pair, the
harness exceptions being reported with their own type and message.  Only
an exception while writing the script file itself (which the source
performs before the `try` block) escapes. -/
theorem c5_run_script_no_propagation_after_write
    (timeout : Nat) (run : Executor.RunOutcome)
    (writeLog : Except Executor.PyExn Unit) :
    (Executor.runScript timeout (Except.ok ()) run writeLog).isOk = true ∧
    (∀ e : Executor.PyExn,
      Executor.runScript timeout (Except.ok ()) (.exn e) writeLog =
        Except.ok (false, .err
          { type_ := e.typeName, message := e.message, line := none,
            traceback := e.message })) ∧
    (∀ (rc : Int) (out errS : Str) (e : Executor.PyExn), rc ≠ 0 →
      Executor.runScript timeout (Except.ok ())
          (.completed rc out errS) (Except.error e) =
        Except.ok (false, .err
          { type_ := e.typeName, message := e.message, line := none,
            traceback := e.message })) ∧
    (∀ out errS : Str,
      Executor.runScript timeout (Except.ok ()) (.completed 0 out errS)
          writeLog = Except.ok (true, .out out)) := by
  refine ⟨?_, fun e => rfl, fun rc out errS e h => ?_, fun out errS => rfl⟩
  · cases run with
    | completed rc out errS =>
      by_cases h : rc = 0
      · subst h
        simp [Executor.runScript, Except.isOk, Except.toBool]
      · cases writeLog <;>
          simp [Executor.runScript, h, Except.isOk, Except.toBool]
    | timeoutExpired => rfl
    | exn e => rfl
  · simp [Executor.runScript, h]

/-- Witness for `c5_run_script_no_propagation_after_write` at a concrete
failing run: exit code 1 and a log-write `PermissionError`. -/
theorem c5_run_script_no_propagation_witness :
    Executor.runScript 30 (Except.ok ())
        (.completed 1 [] (pyS "AttributeError: boom"))
        (Except.error ⟨pyS "PermissionError", pyS "denied"⟩) =
      Except.ok (false, .err
        { type_ := pyS "PermissionError", message := pyS "denied",
          line := none, traceback := pyS "denied" }) :=
  (c5_run_script_no_propagation_after_write 30
      (.completed 1 [] (pyS "AttributeError: boom"))
      (Except.error ⟨pyS "PermissionError", pyS "denied"⟩)).2.2.1 1 []
    (pyS "AttributeError: boom") ⟨pyS "PermissionError", pyS "denied"⟩
    (by decide)

namespace ErrorFeedback

theorem mem_dedupFirst {sg : Str} :
    ∀ (seen : List Str) (l : List Str), sg ∈ dedupFirst seen l → sg ∈ l := by
  intro seen l
  induction l generalizing seen with
  | nil => simp [dedupFirst]
  | cons x xs ih =>
    intro h
    simp only [dedupFirst] at h
    split_ifs at h with hx
    · exact List.mem_cons_of_mem _ (ih seen h)
    · rcases List.mem_cons.mp h with h | h
      · exact h ▸ List.mem_cons_self ..
      · exact List.mem_cons_of_mem _ (ih _ h)

/-- Every record the matched-string lookup loop of `get_similar_errors`
accumulates is the `find?`-first record for some matched message. -/
theorem mem_lookup_loop (errors : List ErrorRecord) (r : ErrorRecord) :
    ∀ (close : List Str) (acc : List ErrorRecord),
      r ∈ close.foldl
        (fun similar m =>
          match errors.find? (fun e => e.error_message == some m) with
          | some e => similar ++ [e]
          | none => similar)
        acc →
      r ∈ acc ∨ ∃ m, errors.find? (fun e => e.error_message == some m) = some r := by
  intro close
  induction close with
  | nil => intro acc h; exact Or.inl h
  | cons m rest ih =>
    intro acc h
    simp only [List.foldl_cons] at h
    rcases ih _ h with hmem | hex
    · cases hfind : errors.find? (fun e => e.error_message == some m) with
      | none => simp only [hfind] at hmem; exact Or.inl hmem
      | some e =>
        simp only [hfind] at hmem
        rcases List.mem_append.mp hmem with hacc | hone
        · exact Or.inl hacc
        · right
          refine ⟨m, ?_⟩
          rw [List.mem_singleton.mp hone]
          exact hfind
    · exact Or.inr hex

end ErrorFeedback

/-- C10: whenever several stored records carry the same `error_message`,
`get_similar_errors` only ever returns the earliest-stored one — every
returned record `r` is the first record (`List.find?`) whose message
equals some matched string — and therefore only such earliest records'
fix outcomes can reach `get_fix_suggestions`: every suggestion is the
`fix_applied` of a successful record that is itself the earliest record
bearing its message. -/
theorem c10_similar_errors_return_earliest :
    (∀ (errors : List ErrorFeedback.ErrorRecord) (msg : Str) (limit : Nat)
        (r : ErrorFeedback.ErrorRecord),
      r ∈ ErrorFeedback.getSimilarErrors errors msg limit →
      ∃ m, r.error_message = some m ∧
        errors.find? (fun e => e.error_message == some m) = some r) ∧
    (∀ (errors : List ErrorFeedback.ErrorRecord) (et msg sg : Str),
      sg ∈ ErrorFeedback.getFixSuggestions errors et msg →
      ∃ r m, r.error_message = some m ∧
        errors.find? (fun e => e.error_message == some m) = some r ∧
        r.fix_successful = true ∧ r.fix_applied = some sg) := by
  have core :
      ∀ (errors : List ErrorFeedback.ErrorRecord) (msg : Str) (limit : Nat)
        (r : ErrorFeedback.ErrorRecord),
        r ∈ ErrorFeedback.getSimilarErrors errors msg limit →
        ∃ m, r.error_message = some m ∧
          errors.find? (fun e => e.error_message == some m) = some r := by
    intro errors msg limit r hr
    unfold ErrorFeedback.getSimilarErrors at hr
    match errors, hr with
    | e0 :: es, hr =>
      rcases ErrorFeedback.mem_lookup_loop (e0 :: es) r _ _ hr with h | ⟨m, hm⟩
      · simp at h
      · refine ⟨m, ?_, hm⟩
        have := List.find?_some hm
        exact beq_iff_eq.mp this
  refine ⟨core, ?_⟩
  intro errors et msg sg hsg
  unfold ErrorFeedback.getFixSuggestions at hsg
  have hsg' := ErrorFeedback.mem_dedupFirst _ _ (List.mem_of_mem_take hsg)
  have loopMem :
      ∀ (sim : List ErrorFeedback.ErrorRecord) (acc : List Str),
        sg ∈ sim.foldl
          (fun acc e =>
            match e.fix_applied with
            | some f => if e.fix_successful && f ≠ [] then acc ++ [f] else acc
            | none => acc)
          acc →
        sg ∈ acc ∨ ∃ r ∈ sim, r.fix_successful = true ∧ r.fix_applied = some sg := by
    intro sim
    induction sim with
    | nil => intro acc h; exact Or.inl h
    | cons e rest ih =>
      intro acc h
      simp only [List.foldl_cons] at h
      rcases ih _ h with hmem | ⟨r, hrmem, hrs⟩
      · cases hfa : e.fix_applied with
        | none => simp only [hfa] at hmem; exact Or.inl hmem
        | some f =>
          simp only [hfa] at hmem
          by_cases hc : (e.fix_successful && f ≠ []) = true
          · rw [if_pos hc] at hmem
            rcases List.mem_append.mp hmem with hacc | hone
            · exact Or.inl hacc
            · right
              refine ⟨e, List.mem_cons_self .., ?_, ?_⟩
              · exact (Bool.and_eq_true ..|>.mp hc).1
              · rw [hfa, List.mem_singleton.mp hone]
          · rw [if_neg hc] at hmem
            exact Or.inl hmem
      · exact Or.inr ⟨r, List.mem_cons_of_mem _ hrmem, hrs⟩
  rcases loopMem _ _ hsg' with h | ⟨r, hrmem, hsucc, happ⟩
  · simp at h
  · obtain ⟨m, hmsg, hfind⟩ := core errors msg 10 r hrmem
    exact ⟨r, m, hmsg, hfind, hsucc, happ⟩

set_option maxRecDepth 8000 in
/-- Witness for `c10_similar_errors_return_earliest`: a store holding two
records with the byte-identical message `boom error` and different fix
descriptions.  Querying with that message returns the first record, and
the theorem exhibits it as the `find?`-earliest record for the matched
message. -/
theorem c10_similar_errors_return_earliest_witness :
    (⟨some (pyS "boom error"), some (pyS "fix A"), true⟩ :
        ErrorFeedback.ErrorRecord) ∈
      ErrorFeedback.getSimilarErrors
        [⟨some (pyS "boom error"), some (pyS "fix A"), true⟩,
         ⟨some (pyS "boom error"), some (pyS "fix B"), true⟩]
        (pyS "boom error") 5 ∧
    ∃ m, (⟨some (pyS "boom error"), some (pyS "fix A"), true⟩ :
        ErrorFeedback.ErrorRecord).error_message = some m ∧
      [(⟨some (pyS "boom error"), some (pyS "fix A"), true⟩ :
          ErrorFeedback.ErrorRecord),
       ⟨some (pyS "boom error"), some (pyS "fix B"), true⟩].find?
          (fun e => e.error_message == some m) =
        some ⟨some (pyS "boom error"), some (pyS "fix A"), true⟩ := by
  refine ⟨by decide, ?_⟩
  exact c10_similar_errors_return_earliest.1
    [⟨some (pyS "boom error"), some (pyS "fix A"), true⟩,
     ⟨some (pyS "boom error"), some (pyS "fix B"), true⟩]
    (pyS "boom error") 5
    ⟨some (pyS "boom error"), some (pyS "fix A"), true⟩ (by decide)

namespace APIValidator

/-- The accumulated error list only grows along `validate_code`'s loop. -/
theorem mem_errors_step (kb : KB) (code : Str) (acc : List Str × List Str)
    (call : ApiCall) {x : Str} (hx : x ∈ acc.1) :
    x ∈ (validateCodeStep kb code acc call).1 := by
  unfold validateCodeStep
  cases inferVariableType kb code call.variable_ with
  | none => exact hx
  | some t =>
    dsimp only
    by_cases hv : (validateMethodOnType kb t call.method).1 = true
    · rw [if_pos hv]; exact hx
    · rw [if_neg hv]
      cases suggestFix kb t call.method with
      | some sug => exact List.mem_append_left _ (List.mem_append_left _ hx)
      | none => exact List.mem_append_left _ hx

theorem mem_errors_foldl (kb : KB) (code : Str) :
    ∀ (calls : List ApiCall) (acc : List Str × List Str) (x : Str),
      x ∈ acc.1 → x ∈ (calls.foldl (validateCodeStep kb code) acc).1 := by
  intro calls
  induction calls with
  | nil => intro acc x hx; exact hx
  | cons c rest ih =>
    intro acc x hx
    exact ih _ x (mem_errors_step kb code acc c hx)

/-- The accumulated warning list only grows along the loop. -/
theorem mem_warnings_step (kb : KB) (code : Str) (acc : List Str × List Str)
    (call : ApiCall) {x : Str} (hx : x ∈ acc.2) :
    x ∈ (validateCodeStep kb code acc call).2 := by
  unfold validateCodeStep
  cases inferVariableType kb code call.variable_ with
  | none => exact List.mem_append_left _ hx
  | some t =>
    dsimp only
    by_cases hv : (validateMethodOnType kb t call.method).1 = true
    · rw [if_pos hv]; exact hx
    · rw [if_neg hv]
      cases suggestFix kb t call.method with
      | some sug => exact hx
      | none => exact hx

theorem mem_warnings_foldl (kb : KB) (code : Str) :
    ∀ (calls : List ApiCall) (acc : List Str × List Str) (x : Str),
      x ∈ acc.2 → x ∈ (calls.foldl (validateCodeStep kb code) acc).2 := by
  intro calls
  induction calls with
  | nil => intro acc x hx; exact hx
  | cons c rest ih =>
    intro acc x hx
    exact ih _ x (mem_warnings_step kb code acc c hx)

/-- Processing a call whose inferred type rejects the method appends the
`Line {n}: {msg}` error. -/
theorem step_adds_error (kb : KB) (code : Str) (acc : List Str × List Str)
    (call : ApiCall) (t : Str)
    (hinf : inferVariableType kb code call.variable_ = some t)
    (hval : (validateMethodOnType kb t call.method).1 = false) :
    (pyS "Line " ++ ASTIndexer.natToStr call.line ++ pyS ": " ++
        (validateMethodOnType kb t call.method).2) ∈
      (validateCodeStep kb code acc call).1 := by
  unfold validateCodeStep
  rw [hinf]
  dsimp only
  rw [if_neg (by simp [hval])]
  cases suggestFix kb t call.method with
  | some sug =>
    exact List.mem_append_left _
      (List.mem_append_right _ (List.mem_singleton_self _))
  | none =>
    exact List.mem_append_right _ (List.mem_singleton_self _)

/-- Processing a call whose type cannot be inferred appends the
`Cannot infer type` warning. -/
theorem step_adds_warning (kb : KB) (code : Str)
    (acc : List Str × List Str) (call : ApiCall)
    (hinf : inferVariableType kb code call.variable_ = none) :
    (pyS "Line " ++ ASTIndexer.natToStr call.line ++
        pyS ": Cannot infer type of '" ++ call.variable_ ++
        pyS "' to validate '" ++ call.method ++ pyS "'") ∈
      (validateCodeStep kb code acc call).2 := by
  unfold validateCodeStep
  rw [hinf]
  exact List.mem_append_right _ (List.mem_singleton_self _)

end APIValidator

set_option maxRecDepth 8000 in
/-- C6 counterexample: for a knowledge graph containing `ISignal` (with
no recorded setters) and the code
```python
try:
    my_signal.set_bogus(pdu)
except Exception:
    pass
```
the type of `my_signal` is inferred **only** from the naming-convention
hint (`'signal' in var_lower`), the method `set_bogus` is not found on
the guessed type — and `validate_code` reports it as a blocking ERROR
(`is_valid = False`, the issue in the `errors` list, `warnings` empty),
not as a warning. -/
theorem c6_naming_hint_mismatch_is_error_counterexample :
    APIValidator.inferVariableType
        [(pyS "ISignal", {})]
        (pyS "try:\n    my_signal.set_bogus(pdu)\nexcept Exception:\n    pass")
        (pyS "my_signal") = some (pyS "ISignal") ∧
    APIValidator.validateCode
        [(pyS "ISignal", {})]
        (pyS "try:\n    my_signal.set_bogus(pdu)\nexcept Exception:\n    pass") =
      (false, [pyS "Line 2: 'ISignal' has no setter method 'set_bogus'"],
        []) := by
  refine ⟨?_, ?_⟩ <;> decide

/-- C6 amended: `validate_code` does not distinguish inference tiers:
whenever a variable's type is inferred at all — including when only the
naming-convention hint applies — and the method is not found on the
guessed type, the issue is appended to the blocking `errors` list and
`is_valid` is `False`; the `warnings` list is used only for calls whose
receiver type cannot be inferred at all. -/
theorem c6_inferred_mismatch_blocks :
    (∀ (kb : APIValidator.KB) (code : Str) (c : APIValidator.ApiCall)
        (t : Str),
      c ∈ APIValidator.extractApiCalls code →
      APIValidator.inferVariableType kb code c.variable_ = some t →
      (APIValidator.validateMethodOnType kb t c.method).1 = false →
      (pyS "Line " ++ ASTIndexer.natToStr c.line ++ pyS ": " ++
          (APIValidator.validateMethodOnType kb t c.method).2) ∈
        (APIValidator.validateCode kb code).2.1 ∧
      (APIValidator.validateCode kb code).1 = false) ∧
    (∀ (kb : APIValidator.KB) (code : Str) (c : APIValidator.ApiCall),
      c ∈ APIValidator.extractApiCalls code →
      APIValidator.inferVariableType kb code c.variable_ = none →
      (pyS "Line " ++ ASTIndexer.natToStr c.line ++
          pyS ": Cannot infer type of '" ++ c.variable_ ++
          pyS "' to validate '" ++ c.method ++ pyS "'") ∈
        (APIValidator.validateCode kb code).2.2) := by
  have loopErr :
      ∀ (kb : APIValidator.KB) (code : Str) (calls : List APIValidator.ApiCall)
        (acc : List Str × List Str) (c : APIValidator.ApiCall) (t : Str),
        c ∈ calls →
        APIValidator.inferVariableType kb code c.variable_ = some t →
        (APIValidator.validateMethodOnType kb t c.method).1 = false →
        (pyS "Line " ++ ASTIndexer.natToStr c.line ++ pyS ": " ++
            (APIValidator.validateMethodOnType kb t c.method).2) ∈
          (calls.foldl (APIValidator.validateCodeStep kb code) acc).1 := by
    intro kb code calls
    induction calls with
    | nil => intro acc c t hc; exact absurd hc (List.not_mem_nil c)
    | cons c0 rest ih =>
      intro acc c t hc hinf hval
      rcases List.mem_cons.mp hc with rfl | hc
      · exact APIValidator.mem_errors_foldl kb code rest _ _
          (APIValidator.step_adds_error kb code acc c t hinf hval)
      · exact ih _ c t hc hinf hval
  have loopWarn :
      ∀ (kb : APIValidator.KB) (code : Str) (calls : List APIValidator.ApiCall)
        (acc : List Str × List Str) (c : APIValidator.ApiCall),
        c ∈ calls →
        APIValidator.inferVariableType kb code c.variable_ = none →
        (pyS "Line " ++ ASTIndexer.natToStr c.line ++
            pyS ": Cannot infer type of '" ++ c.variable_ ++
            pyS "' to validate '" ++ c.method ++ pyS "'") ∈
          (calls.foldl (APIValidator.validateCodeStep kb code) acc).2 := by
    intro kb code calls
    induction calls with
    | nil => intro acc c hc; exact absurd hc (List.not_mem_nil c)
    | cons c0 rest ih =>
      intro acc c hc hinf
      rcases List.mem_cons.mp hc with rfl | hc
      · exact APIValidator.mem_warnings_foldl kb code rest _ _
          (APIValidator.step_adds_warning kb code acc c hinf)
      · exact ih _ c hc hinf
  constructor
  · intro kb code c t hc hinf hval
    have hmem := loopErr kb code (APIValidator.extractApiCalls code)
      ([], []) c t hc hinf hval
    have hmem' :
        (pyS "Line " ++ ASTIndexer.natToStr c.line ++ pyS ": " ++
            (APIValidator.validateMethodOnType kb t c.method).2) ∈
          (APIValidator.validateCode kb code).2.1 := by
      unfold APIValidator.validateCode
      exact List.mem_append_left _ hmem
    refine ⟨hmem', ?_⟩
    unfold APIValidator.validateCode
    dsimp only
    rw [List.isEmpty_eq_false_iff_exists_mem.mpr
      ⟨_, List.mem_append_left _ hmem⟩]
  · intro kb code c hc hinf
    have hmem := loopWarn kb code (APIValidator.extractApiCalls code)
      ([], []) c hc hinf
    unfold APIValidator.validateCode
    exact hmem

set_option maxRecDepth 8000 in
/-- Witness for `c6_inferred_mismatch_blocks`, at the concrete
naming-hint scenario of the counterexample. -/
theorem c6_inferred_mismatch_blocks_witness :
    (pyS "Line " ++ ASTIndexer.natToStr 2 ++ pyS ": " ++
        (APIValidator.validateMethodOnType [(pyS "ISignal", {})]
          (pyS "ISignal") (pyS "set_bogus")).2) ∈
      (APIValidator.validateCode [(pyS "ISignal", {})]
        (pyS "try:\n    my_signal.set_bogus(pdu)\nexcept Exception:\n    pass")).2.1 ∧
    (APIValidator.validateCode [(pyS "ISignal", {})]
      (pyS "try:\n    my_signal.set_bogus(pdu)\nexcept Exception:\n    pass")).1 =
      false :=
  c6_inferred_mismatch_blocks.1 [(pyS "ISignal", {})]
    (pyS "try:\n    my_signal.set_bogus(pdu)\nexcept Exception:\n    pass")
    ⟨pyS "my_signal", pyS "set_bogus", 2⟩ (pyS "ISignal")
    (by decide) (by decide) (by decide)

namespace Fixer

/-- Every branch of `fix_code` increments the attempt counter by exactly
one and leaves the configured ceiling untouched. -/
theorem fixCode_state (llm : Nat → Except Executor.PyExn Str)
    (s : FixerState) (code : Str) (err : ErrLog) :
    ((fixCode llm s code err).2.1).fixAttempts = s.fixAttempts + 1 ∧
    ((fixCode llm s code err).2.1).maxAttempts = s.maxAttempts := by
  unfold fixCode
  dsimp only
  repeat' split <;> try exact ⟨rfl, rfl⟩

/-- After a session of `n` calls the attempt counter has grown by `n`. -/
theorem runCalls_state (llm : Nat → Except Executor.PyExn Str) :
    ∀ (calls : List (Str × ErrLog)) (s : FixerState),
      (runCalls llm s calls).fixAttempts = s.fixAttempts + calls.length ∧
      (runCalls llm s calls).maxAttempts = s.maxAttempts := by
  intro calls
  induction calls with
  | nil => intro s; exact ⟨rfl, rfl⟩
  | cons ce rest ih =>
    intro s
    obtain ⟨ha, hm⟩ := ih (fixCode llm s ce.1 ce.2).2.1
    obtain ⟨ha', hm'⟩ := fixCode_state llm s ce.1 ce.2
    constructor
    · calc (runCalls llm s (ce :: rest)).fixAttempts
          = (fixCode llm s ce.1 ce.2).2.1.fixAttempts + rest.length := ha
        _ = s.fixAttempts + 1 + rest.length := by rw [ha']
        _ = s.fixAttempts + (ce :: rest).length := by
            simp [List.length_cons]; omega
    · calc (runCalls llm s (ce :: rest)).maxAttempts
          = (fixCode llm s ce.1 ce.2).2.1.maxAttempts := hm
        _ = s.maxAttempts := hm'

end Fixer

/-- C1: for a `Fixer` constructed with `max_attempts = N`
(`fix_attempts = 0`, fresh error history), after any session of at least
`N` calls to `fix_code`, the next call returns its input code unchanged
and invokes no repair tier — no deterministic fix, no pattern fix, no
LLM call: the incremented counter exceeds the ceiling and `fix_code`
returns `code` immediately. -/
theorem c1_max_attempts_returns_code_unchanged
    (llm : Nat → Except Executor.PyExn Str) (N : Nat)
    (calls : List (Str × Fixer.ErrLog)) (code : Str) (err : Fixer.ErrLog)
    (h : N ≤ calls.length) :
    (Fixer.fixCode llm
        (Fixer.runCalls llm ⟨0, N, [], true⟩ calls) code err).1 = code ∧
    (Fixer.fixCode llm
        (Fixer.runCalls llm ⟨0, N, [], true⟩ calls) code err).2.2 = none := by
  obtain ⟨ha, hm⟩ := Fixer.runCalls_state llm calls ⟨0, N, [], true⟩
  unfold Fixer.fixCode
  dsimp only
  rw [if_pos (by simp only [ha, hm]; omega)]
  exact ⟨rfl, rfl⟩

/-- Witness for `c1_max_attempts_returns_code_unchanged`: `N = 1`, one
prior call; the second call hands back its input with no tier marker. -/
theorem c1_max_attempts_returns_code_unchanged_witness :
    (Fixer.fixCode (fun _ => Except.ok [])
        (Fixer.runCalls (fun _ => Except.ok []) ⟨0, 1, [], true⟩
          [(pyS "x = 1", Fixer.ErrLog.str (pyS "boom"))])
        (pyS "x = 1") (Fixer.ErrLog.str (pyS "boom"))).1 = pyS "x = 1" ∧
    (Fixer.fixCode (fun _ => Except.ok [])
        (Fixer.runCalls (fun _ => Except.ok []) ⟨0, 1, [], true⟩
          [(pyS "x = 1", Fixer.ErrLog.str (pyS "boom"))])
        (pyS "x = 1") (Fixer.ErrLog.str (pyS "boom"))).2.2 = none :=
  c1_max_attempts_returns_code_unchanged (fun _ => Except.ok []) 1
    [(pyS "x = 1", Fixer.ErrLog.str (pyS "boom"))] (pyS "x = 1")
    (Fixer.ErrLog.str (pyS "boom")) (by decide)

namespace RepairLoops

/-- With a failing executor and an identity fixer, the `app.py` loop
stalls: starting from `consecutive_unchanged = consec` with `k + 1`
unchanged fix calls still needed to reach 5, and enough retries left, it
stops with the stall report after exactly those `k + 1` further fix
calls, leaving the code untouched. -/
theorem appLoopAux_stalls {σ : Type} (run : Nat → Str → Bool × Fixer.ErrLog)
    (verify : Nat → Bool × Str) (fx : σ → Str → Fixer.ErrLog → Str × σ)
    (validax : Str → Str × Bool) (maxRetries : Nat) (code : Str)
    (hrun : ∀ a c, (run a c).1 = false)
    (hfx : ∀ s c e, (fx s c e).1 = c) :
    ∀ (k remaining attempt : Nat) (fs : σ) (consec fc : Nat),
      consec + k + 1 = 5 → k + 1 ≤ remaining → attempt + k + 1 ≤ maxRetries →
      appLoopAux run verify fx validax maxRetries remaining attempt code fs
          consec fc =
        ⟨false, true, fc + k + 1, code⟩ := by
  intro k
  induction k with
  | zero =>
    intro remaining attempt fs consec fc hcons hrem hatt
    match remaining, hrem with
    | r + 1, _ =>
      simp only [appLoopAux, hrun, Bool.false_eq_true, if_false]
      rw [if_pos (by omega : attempt < maxRetries)]
      simp only [hfx, beq_self_eq_true, if_true]
      rw [if_pos (by omega : 5 ≤ consec + 1)]
  | succ k ih =>
    intro remaining attempt fs consec fc hcons hrem hatt
    match remaining, hrem with
    | r + 1, _ =>
      simp only [appLoopAux, hrun, Bool.false_eq_true, if_false]
      rw [if_pos (by omega : attempt < maxRetries)]
      simp only [hfx, beq_self_eq_true, if_true]
      rw [if_neg (by omega : ¬ 5 ≤ consec + 1)]
      have hrec := ih r (attempt + 1)
        (fx fs code (run attempt code).2).2
        (consec + 1) (fc + 1) (by omega) (by omega) (by omega)
      rw [hrec]
      simp only [LoopResult.mk.injEq, true_and, and_true]
      omega

end RepairLoops

namespace RepairLoops

/-- With a failing executor and an identity fixer, the CLI loop of
`src/main.py` never stalls and never succeeds: it performs one fix call
per remaining attempt below the retry ceiling and ends only by
exhausting `range(max_retries + 1)`. -/
theorem mainLoopAux_exhausts {σ : Type}
    (run : Nat → Str → Bool × Fixer.ErrLog) (verify : Nat → Bool × Str)
    (fx : σ → Str → Fixer.ErrLog → Str × σ) (maxRetries : Nat) (code : Str)
    (hrun : ∀ a c, (run a c).1 = false)
    (hfx : ∀ s c e, (fx s c e).1 = c) :
    ∀ (remaining attempt : Nat) (fs : σ) (fc : Nat),
      attempt + remaining = maxRetries + 1 →
      mainLoopAux run verify fx maxRetries remaining attempt code fs fc =
        ⟨false, false, fc + (maxRetries - attempt), code⟩ := by
  intro remaining
  induction remaining with
  | zero =>
    intro attempt fs fc htot
    simp only [mainLoopAux, LoopResult.mk.injEq, true_and, and_true]
    omega
  | succ r ih =>
    intro attempt fs fc htot
    simp only [mainLoopAux, hrun, Bool.false_eq_true, if_false]
    by_cases hatt : attempt < maxRetries
    · rw [if_pos hatt]
      have hfix : (fx fs code (run attempt code).2).1 = code := hfx ..
      rw [hfix]
      have hrec := ih (attempt + 1) (fx fs code (run attempt code).2).2
        (fc + 1) (by omega)
      rw [hrec]
      simp only [LoopResult.mk.injEq, true_and, and_true]
      omega
    · rw [if_neg hatt]
      have hrec := ih (attempt + 1) fs fc (by omega)
      rw [hrec]
      simp only [LoopResult.mk.injEq, true_and, and_true]
      omega

end RepairLoops

/-- C2 counterexample: with a fixer that always returns byte-identical
code (the Tier-3 mock) and an executor that always fails, the CLI repair
loop of `src/main.py` at its default `--max-retries 10` performs **ten**
fix calls — not five — and terminates only by exhausting its retry
budget, with no stall report: the 5-consecutive-unchanged stall
detection exists only in `app.py`'s loop. -/
theorem c2_cli_loop_no_stall_counterexample :
    RepairLoops.mainLoop (σ := Unit)
        (fun _ _ => (false, Fixer.ErrLog.str (pyS "AttributeError: boom")))
        (fun _ => (true, [])) (fun s c _ => (c, s)) 10 (pyS "x = 1") () =
      ⟨false, false, 10, pyS "x = 1"⟩ ∧ ¬ (10 : Nat) ≤ 5 := by
  exact ⟨by decide, by decide⟩

/-- C2 amended: if the fixer returns byte-identical code on every
attempt and execution keeps failing, then (a) the `app.py` session loop
(for any `max_retries ≥ 5`, which the app guarantees via
`max(base_retries, ...)` with a base of 5) terminates with the stall
report after exactly 5 fix calls, leaving the code unchanged; but
(b) the CLI loop of `src/main.py` has no stall detection: it performs
`max_retries` fix calls (default 10) and stops only on budget
exhaustion, reporting no stall. -/
theorem c2_stall_detection_only_in_app_loop :
    (∀ (σ : Type) (run : Nat → Str → Bool × Fixer.ErrLog)
        (verify : Nat → Bool × Str)
        (fx : σ → Str → Fixer.ErrLog → Str × σ)
        (validax : Str → Str × Bool) (maxRetries : Nat) (code : Str)
        (fs : σ),
      (∀ a c, (run a c).1 = false) → (∀ s c e, (fx s c e).1 = c) →
      5 ≤ maxRetries →
      RepairLoops.appLoop run verify fx validax maxRetries code fs =
        ⟨false, true, 5, code⟩) ∧
    (∀ (σ : Type) (run : Nat → Str → Bool × Fixer.ErrLog)
        (verify : Nat → Bool × Str)
        (fx : σ → Str → Fixer.ErrLog → Str × σ) (maxRetries : Nat)
        (code : Str) (fs : σ),
      (∀ a c, (run a c).1 = false) → (∀ s c e, (fx s c e).1 = c) →
      RepairLoops.mainLoop run verify fx maxRetries code fs =
        ⟨false, false, maxRetries, code⟩) := by
  constructor
  · intro σ run verify fx validax maxRetries code fs hrun hfx hmax
    have := RepairLoops.appLoopAux_stalls run verify fx validax maxRetries
      code hrun hfx 4 (maxRetries + 1) 0 fs 0 0 (by omega) (by omega)
      (by omega)
    simpa [RepairLoops.appLoop] using this
  · intro σ run verify fx maxRetries code fs hrun hfx
    have := RepairLoops.mainLoopAux_exhausts run verify fx maxRetries code
      hrun hfx (maxRetries + 1) 0 fs 0 (by omega)
    simpa [RepairLoops.mainLoop] using this

/-- Witness for `c2_stall_detection_only_in_app_loop` at concrete
oracles: the app loop with `max_retries = 5` stalls after 5 fix calls;
the CLI loop with the default 10 burns all ten. -/
theorem c2_stall_detection_only_in_app_loop_witness :
    RepairLoops.appLoop (σ := Unit)
        (fun _ _ => (false, Fixer.ErrLog.str (pyS "AttributeError: boom")))
        (fun _ => (true, [])) (fun s c _ => (c, s)) (fun c => (c, false)) 5
        (pyS "x = 1") () = ⟨false, true, 5, pyS "x = 1"⟩ ∧
    RepairLoops.mainLoop (σ := Unit)
        (fun _ _ => (false, Fixer.ErrLog.str (pyS "AttributeError: boom")))
        (fun _ => (true, [])) (fun s c _ => (c, s)) 10 (pyS "x = 1") () =
      ⟨false, false, 10, pyS "x = 1"⟩ :=
  ⟨c2_stall_detection_only_in_app_loop.1 Unit
      (fun _ _ => (false, Fixer.ErrLog.str (pyS "AttributeError: boom")))
      (fun _ => (true, [])) (fun s c _ => (c, s)) (fun c => (c, false)) 5
      (pyS "x = 1") () (fun _ _ => rfl) (fun _ _ _ => rfl) (by decide),
   c2_stall_detection_only_in_app_loop.2 Unit
      (fun _ _ => (false, Fixer.ErrLog.str (pyS "AttributeError: boom")))
      (fun _ => (true, [])) (fun s c _ => (c, s)) 10 (pyS "x = 1") ()
      (fun _ _ => rfl) (fun _ _ _ => rfl)⟩

set_option maxRecDepth 8000 in
/-- C4 counterexample: `_apply_auto_fixes` replaces hallucination keys
as raw substrings.  On `obj.new_RunnableEntityEntityGroup(v)` the
replacement merges into `obj.new_RunnableEntityGroup(v)`; with a symbol
table containing `new_RunnableEntityGroup`, `validate` of the original
reports `fixed_code` with **zero** ERROR issues, yet `validate` of that
reported `fixed_code` rewrites it again into the nonexistent
`obj.new_RunnableGroup(v)` and reports **one** ERROR: re-running
`validate` on `fixed_code` reports *more* errors than were reported for
the original. -/
theorem c4_autofix_can_increase_errors :
    (ValidationEngine.validate ValidationEngine.exParse
        ValidationEngine.exUKB ValidationEngine.exC).fixed_code =
      some ValidationEngine.exC1 ∧
    ValidationEngine.errorCount
        (ValidationEngine.validate ValidationEngine.exParse
          ValidationEngine.exUKB ValidationEngine.exC).issues = 0 ∧
    (ValidationEngine.validate ValidationEngine.exParse
        ValidationEngine.exUKB ValidationEngine.exC1).fixed_code =
      some ValidationEngine.exC2 ∧
    ValidationEngine.errorCount
        (ValidationEngine.validate ValidationEngine.exParse
          ValidationEngine.exUKB ValidationEngine.exC1).issues = 1 := by
  refine ⟨?_, ?_, ?_, ?_⟩ <;> decide

/-- C4 amended: whenever `validate` reports a non-null `fixed_code`, the
issue list it reports for the *original* code is already the re-validated
issue list of `fixed_code`; consequently, **provided the auto-fix pass
has reached a fixed point on `fixed_code`** (re-fixing applies no further
change), `validate(fixed_code)` reports exactly as many ERROR issues as
`validate` reported for the original.  Without that proviso the count
can grow (see the counterexample): the substring-based hallucination
replacement can corrupt a longer, existing method name into a
nonexistent one. -/
theorem c4_revalidation_count_at_fixed_point
    (parse : ValidationEngine.ParseOracle) (kb : ValidationEngine.UKB)
    (code fc : Str)
    (hfc : (ValidationEngine.validate parse kb code).fixed_code = some fc) :
    ValidationEngine.errorCount
        (ValidationEngine.validate parse kb code).issues =
      ValidationEngine.errorCount
        (ValidationEngine.validateNoFixIssues parse kb fc) ∧
    ((ValidationEngine.applyAutoFixes fc).2 = [] →
      ValidationEngine.errorCount
          (ValidationEngine.validate parse kb fc).issues =
        ValidationEngine.errorCount
          (ValidationEngine.validate parse kb code).issues) := by
  cases hp : parse code with
  | error e =>
    unfold ValidationEngine.validate at hfc
    rw [hp] at hfc
    simp at hfc
  | ok calls =>
    unfold ValidationEngine.validate at hfc
    rw [hp] at hfc
    dsimp only at hfc
    by_cases hne : (ValidationEngine.applyAutoFixes code).2 ≠ []
    · rw [if_pos hne] at hfc
      have hfc' : (ValidationEngine.applyAutoFixes code).1 = fc :=
        Option.some.inj hfc
      have hissues :
          (ValidationEngine.validate parse kb code).issues =
            ValidationEngine.validateNoFixIssues parse kb fc := by
        unfold ValidationEngine.validate
        rw [hp]
        dsimp only
        rw [if_pos hne, hfc']
      refine ⟨by rw [hissues], ?_⟩
      intro hfix
      cases hp2 : parse fc with
      | error e2 =>
        have h1 : (ValidationEngine.validate parse kb fc).issues =
            ValidationEngine.validateNoFixIssues parse kb fc := by
          unfold ValidationEngine.validate
            ValidationEngine.validateNoFixIssues
          rw [hp2]
        rw [h1, hissues]
      | ok calls2 =>
        have h1 : (ValidationEngine.validate parse kb fc).issues =
            ValidationEngine.issuesFor kb fc calls2 := by
          unfold ValidationEngine.validate
          rw [hp2]
          dsimp only
          rw [if_neg (by simpa using hfix)]
        have h2 : ValidationEngine.validateNoFixIssues parse kb fc =
            ValidationEngine.issuesFor kb fc calls2 := by
          unfold ValidationEngine.validateNoFixIssues
          rw [hp2]
        rw [h1, hissues, h2]
    · rw [if_neg hne] at hfc
      simp at hfc

set_option maxRecDepth 8000 in
/-- Witness for `c4_revalidation_count_at_fixed_point`:
`obj.new_ServiceEvent(v)` is rewritten once to `obj.new_Event(v)`
(reported `fixed_code`), on which the auto-fix pass is a no-op, and the
reported error counts agree. -/
theorem c4_revalidation_count_at_fixed_point_witness :
    ValidationEngine.errorCount
        (ValidationEngine.validate ValidationEngine.wParse
          ValidationEngine.wUKB ValidationEngine.wC).issues =
      ValidationEngine.errorCount
        (ValidationEngine.validateNoFixIssues ValidationEngine.wParse
          ValidationEngine.wUKB ValidationEngine.wC1) ∧
    ValidationEngine.errorCount
        (ValidationEngine.validate ValidationEngine.wParse
          ValidationEngine.wUKB ValidationEngine.wC1).issues =
      ValidationEngine.errorCount
        (ValidationEngine.validate ValidationEngine.wParse
          ValidationEngine.wUKB ValidationEngine.wC).issues :=
  ⟨(c4_revalidation_count_at_fixed_point ValidationEngine.wParse
      ValidationEngine.wUKB ValidationEngine.wC ValidationEngine.wC1
      (by decide)).1,
   (c4_revalidation_count_at_fixed_point ValidationEngine.wParse
      ValidationEngine.wUKB ValidationEngine.wC ValidationEngine.wC1
      (by decide)).2 (by decide)⟩
